import Mathlib

/-!
Verification model of the BagelPay Go SDK (bagelpay-sdk-go).

The development shallowly embeds the core of the SDK: the JSON model layer
(`models.go`), the error taxonomy (`errors.go`), the transport client
(`client.go`: `NewClient`, `makeRequest` query/URL construction,
`handleResponse` status classification, endpoint builders), and the webhook
HMAC-SHA256 signature verifier from the webhook integration code of the README.

Conventions:
  - Go byte strings are `List Nat` (each element a byte value < 256) where
    byte-level behaviour matters (the crypto), and Lean `String` elsewhere.
  - 32-bit machine words are `Nat` reduced modulo `2 ^ 32` at every
    operation that can overflow.
  - Go `nil` pointers / absent JSON fields are `Option.none`.
  - `encoding/json` trees are the inductive `Json`; the Go functions
    `json.Marshal` / `json.Unmarshal` for the concrete model structs are
    embedded as functions to and from `Json` (the text layer between a tree
    and its canonical rendering is the identity on trees).
-/

set_option maxHeartbeats 1000000

/-! ## JSON trees (model of Go `encoding/json` values) -/

/-- A finite Go `float64` value, identified by the shortest decimal text
that `encoding/json` (via `strconv`) emits for it.  This text is a
bijective key for finite `float64` values (the shortest round-trip
rendering), and `json.Marshal` rejects NaN and the infinities, so every
marshallable `float64` is represented. -/
structure GoFloat where
  repr : String
deriving Repr, DecidableEq

/-- A JSON value as produced or consumed by Go `encoding/json`.  A number
node is `num n` when it is written or read through a Go integer field and
`fnum f` when written or read through a Go `float64` field (for an
integer-valued `float64` Go emits the same digits an integer would; the
tree keeps the typed view of the number). -/
inductive Json where
  | null
  | boolean (b : Bool)
  | num (n : Int)
  | fnum (f : GoFloat)
  | str (s : String)
  | arr (elems : List Json)
  | obj (fields : List (String × Json))

/-- Go `json.Unmarshal` keeps the **last** occurrence of a duplicated object
key; lookup of a key in the field list of an object, last binding wins. -/
def lookupLast (fields : List (String × Json)) (k : String) : Option Json :=
  fields.foldl (fun acc kv => if kv.1 = k then some kv.2 else acc) none

/-! ## Model layer (`models.go`) -/

/-- `Customer` (models.go): customer data for a checkout session.
Go: `Email string  json:"email"`. -/
structure Customer where
  email : String
deriving Repr, DecidableEq

/-- `CheckoutRequest` (models.go): request model for creating a checkout
session.  Pointer / map fields are `Option`; `metadata` is
`map[string]interface{}` with a `none` for the Go nil map and `some kvs`
for a non-nil map with bindings `kvs` (unique keys). -/
structure CheckoutRequest where
  productID : String
  customer : Option Customer
  requestID : Option String
  units : Option String
  successURL : Option String
  metadata : Option (List (String × Json))

/-- `json.Marshal` of a `Customer`: the single `email` field has no
`omitempty`, so it is always emitted. -/
def marshalCustomer (c : Customer) : Json :=
  .obj [("email", .str c.email)]

/-- `json.Marshal` of a `CheckoutRequest`, following the struct tags:
`product_id` (no omitempty) always present; the pointer fields
(`customer`, `request_id`, `units`, `success_url`) are omitted exactly when
nil; the `metadata` map carries `omitempty`, and Go treats both a nil map
and an **empty** map as empty, omitting the key in both cases. -/
def marshalCheckoutRequest (r : CheckoutRequest) : Json :=
  .obj (
    [("product_id", .str r.productID)]
    ++ (match r.customer with
        | some c => [("customer", marshalCustomer c)]
        | none => [])
    ++ (match r.requestID with
        | some s => [("request_id", .str s)]
        | none => [])
    ++ (match r.units with
        | some s => [("units", .str s)]
        | none => [])
    ++ (match r.successURL with
        | some s => [("success_url", .str s)]
        | none => [])
    ++ (match r.metadata with
        | some m => if m.isEmpty then [] else [("metadata", .obj m)]
        | none => []))

/-- `json.Unmarshal` into a Go (non-pointer) `string` field: an absent key
or JSON `null` leaves the zero value `""`; a JSON string sets the field; any
other JSON type is an unmarshal error. -/
def unmarshalStringField (fields : List (String × Json)) (k : String) :
    Option String :=
  match lookupLast fields k with
  | none => some ""
  | some .null => some ""
  | some (.str s) => some s
  | some _ => none

/-- `json.Unmarshal` into a Go `*string` field: absent key leaves the nil
pointer; JSON `null` sets the pointer to nil; a JSON string allocates; any
other JSON type is an unmarshal error. -/
def unmarshalStringPtrField (fields : List (String × Json)) (k : String) :
    Option (Option String) :=
  match lookupLast fields k with
  | none => some none
  | some .null => some none
  | some (.str s) => some (some s)
  | some _ => none

/-- `json.Unmarshal` into a `Customer` value. -/
def unmarshalCustomer (j : Json) : Option Customer :=
  match j with
  | .obj fields =>
      match unmarshalStringField fields "email" with
      | some e => some { email := e }
      | none => none
  | _ => none

/-- `json.Unmarshal` into a Go `*Customer` field. -/
def unmarshalCustomerPtrField (fields : List (String × Json)) (k : String) :
    Option (Option Customer) :=
  match lookupLast fields k with
  | none => some none
  | some .null => some none
  | some j =>
      match unmarshalCustomer j with
      | some c => some (some c)
      | none => none

/-- `json.Unmarshal` into a Go `map[string]interface{}` field: absent key
leaves the nil map; JSON `null` leaves the nil map; a JSON object yields its
bindings; any other JSON type is an unmarshal error. -/
def unmarshalMetadataField (fields : List (String × Json)) (k : String) :
    Option (Option (List (String × Json))) :=
  match lookupLast fields k with
  | none => some none
  | some .null => some none
  | some (.obj kvs) => some (some kvs)
  | some _ => none

/-- `json.Unmarshal` of a JSON tree into a `CheckoutRequest` (the model of
`FromJSON(data, &checkoutRequest)`).  A top-level JSON `null` is a no-op on
the zero struct; a non-object is an error. -/
def unmarshalCheckoutRequest (j : Json) : Option CheckoutRequest :=
  match j with
  | .null => some ⟨"", none, none, none, none, none⟩
  | .obj fields =>
      match unmarshalStringField fields "product_id",
            unmarshalCustomerPtrField fields "customer",
            unmarshalStringPtrField fields "request_id",
            unmarshalStringPtrField fields "units",
            unmarshalStringPtrField fields "success_url",
            unmarshalMetadataField fields "metadata" with
      | some pid, some cust, some rid, some un, some su, some md =>
          some ⟨pid, cust, rid, un, su, md⟩
      | _, _, _, _, _, _ => none
  | _ => none

/-- `ToJSON` (models.go) specialised to `CheckoutRequest`: marshal to the
JSON tree whose canonical text `json.Marshal` would emit. -/
def ToJSONCheckoutRequest (r : CheckoutRequest) : Json :=
  marshalCheckoutRequest r

/-- `FromJSON` (models.go) specialised to `CheckoutRequest`. -/
def FromJSONCheckoutRequest (j : Json) : Option CheckoutRequest :=
  unmarshalCheckoutRequest j

/-! ### Remaining wire models (`models.go`)

The other model structs follow the same `encoding/json` discipline as
`CheckoutRequest`.  Their marshalled objects are built from three field
shapes: `optField` for a field emitted exactly when its value is present
(a pointer field with `omitempty`, or a plain field always emitted as
`some`), `mapField` for a `map[string]interface{}` with `omitempty`
(omitted when nil **or empty**), and `itemsJson` for a plain slice field
(a nil slice marshals as `null`).  The `read*` functions are the
per-field-type decode of `json.Unmarshal` applied to the looked-up value:
an absent key leaves the zero value, JSON `null` is a no-op for plain
fields and sets pointers, slices and maps to nil, a matching JSON type
sets the field and any other JSON type is an unmarshal error. -/

/-- One marshalled object field, emitted exactly when the value is
present. -/
def optField (k : String) (o : Option Json) : List (String × Json) :=
  match o with
  | some j => [(k, j)]
  | none => []

/-- A marshalled `map[string]interface{}` field with `omitempty`: omitted
when the map is nil or empty. -/
def mapField (k : String) (o : Option (List (String × Json))) :
    List (String × Json) :=
  match o with
  | some m => if m.isEmpty then [] else [(k, .obj m)]
  | none => []

/-- A marshalled Go slice value: a nil slice marshals as `null`, a non-nil
slice as the array of its marshalled elements. -/
def itemsJson (o : Option (List α)) (f : α → Json) : Json :=
  match o with
  | some l => .arr (l.map f)
  | none => .null

/-- Decode into a plain Go `string` field. -/
def readString : Option Json → Option String
  | none => some ""
  | some .null => some ""
  | some (.str s) => some s
  | some _ => none

/-- Decode into a Go `*string` field. -/
def readStringPtr : Option Json → Option (Option String)
  | none => some none
  | some .null => some none
  | some (.str s) => some (some s)
  | some _ => none

/-- Decode into a plain Go `int` field. -/
def readInt : Option Json → Option Int
  | none => some 0
  | some .null => some 0
  | some (.num n) => some n
  | some _ => none

/-- Decode into a Go `*int` field. -/
def readIntPtr : Option Json → Option (Option Int)
  | none => some none
  | some .null => some none
  | some (.num n) => some (some n)
  | some _ => none

/-- Decode into a plain Go `float64` field.  Go also accepts an integer
literal into a `float64`; for integers exactly representable in `float64`
the canonical text of the parsed value is the digit string itself. -/
def readFloat : Option Json → Option GoFloat
  | none => some ⟨"0"⟩
  | some .null => some ⟨"0"⟩
  | some (.fnum f) => some f
  | some (.num n) => some ⟨toString n⟩
  | some _ => none

/-- Decode into a Go `*float64` field. -/
def readFloatPtr : Option Json → Option (Option GoFloat)
  | none => some none
  | some .null => some none
  | some (.fnum f) => some (some f)
  | some (.num n) => some (some ⟨toString n⟩)
  | some _ => none

/-- Decode into a plain Go `bool` field. -/
def readBool : Option Json → Option Bool
  | none => some false
  | some .null => some false
  | some (.boolean b) => some b
  | some _ => none

/-- Decode into a Go `*bool` field. -/
def readBoolPtr : Option Json → Option (Option Bool)
  | none => some none
  | some .null => some none
  | some (.boolean b) => some (some b)
  | some _ => none

/-- Decode into a Go `map[string]interface{}` field. -/
def readMetadata : Option Json → Option (Option (List (String × Json)))
  | none => some none
  | some .null => some none
  | some (.obj kvs) => some (some kvs)
  | some _ => none

/-- Decode every element of a JSON array; the first element error aborts
with an unmarshal error, as `json.Unmarshal` reports one. -/
def unmarshalListWith (f : Json → Option α) : List Json → Option (List α)
  | [] => some []
  | j :: rest =>
      match f j, unmarshalListWith f rest with
      | some x, some xs => some (x :: xs)
      | _, _ => none

/-- Decode into a Go slice field (`[]T`): absent or `null` leaves the nil
slice, an array decodes elementwise. -/
def readItems (f : Json → Option α) : Option Json → Option (Option (List α))
  | none => some none
  | some .null => some none
  | some (.arr es) => (unmarshalListWith f es).map some
  | some _ => none

/-- Decode into a Go `*Customer` field. -/
def readCustomerPtr (o : Option Json) : Option (Option Customer) :=
  match o with
  | none => some none
  | some .null => some none
  | some j =>
      match unmarshalCustomer j with
      | some c => some (some c)
      | none => none

/-- `TransactionCustomer` (models.go). -/
structure TransactionCustomer where
  id : Option String
  email : Option String

/-- `json.Marshal` of a `TransactionCustomer`, fields in declaration order. -/
def marshalTransactionCustomer (r : TransactionCustomer) : Json :=
  .obj (optField "id" (Option.map Json.str r.id)
    ++ optField "email" (Option.map Json.str r.email))

/-- `json.Unmarshal` of a JSON tree into a `TransactionCustomer`. -/
def unmarshalTransactionCustomer (j : Json) : Option TransactionCustomer :=
  match j with
  | .null => some ⟨none, none⟩
  | .obj fields =>
      match
        readStringPtr (lookupLast fields "id"),
        readStringPtr (lookupLast fields "email") with
      | some id, some email =>
          some ⟨id, email⟩
      | _, _ => none
  | _ => none

/-- `SubscriptionCustomer` (models.go). -/
structure SubscriptionCustomer where
  id : Option String
  email : Option String

/-- `json.Marshal` of a `SubscriptionCustomer`, fields in declaration order. -/
def marshalSubscriptionCustomer (r : SubscriptionCustomer) : Json :=
  .obj (optField "id" (Option.map Json.str r.id)
    ++ optField "email" (Option.map Json.str r.email))

/-- `json.Unmarshal` of a JSON tree into a `SubscriptionCustomer`. -/
def unmarshalSubscriptionCustomer (j : Json) : Option SubscriptionCustomer :=
  match j with
  | .null => some ⟨none, none⟩
  | .obj fields =>
      match
        readStringPtr (lookupLast fields "id"),
        readStringPtr (lookupLast fields "email") with
      | some id, some email =>
          some ⟨id, email⟩
      | _, _ => none
  | _ => none

/-- Decode into a Go `*TransactionCustomer` field. -/
def readTransactionCustomerPtr (o : Option Json) :
    Option (Option TransactionCustomer) :=
  match o with
  | none => some none
  | some .null => some none
  | some j =>
      match unmarshalTransactionCustomer j with
      | some c => some (some c)
      | none => none

/-- Decode into a Go `*SubscriptionCustomer` field. -/
def readSubscriptionCustomerPtr (o : Option Json) :
    Option (Option SubscriptionCustomer) :=
  match o with
  | none => some none
  | some .null => some none
  | some j =>
      match unmarshalSubscriptionCustomer j with
      | some c => some (some c)
      | none => none

/-- `CheckoutResponse` (models.go).  Note `units` is a `*int` here, unlike the `*string` of the request. -/
structure CheckoutResponse where
  object : Option String
  units : Option Int
  metadata : Option (List (String × Json))
  status : Option String
  mode : Option String
  paymentID : Option String
  productID : Option String
  requestID : Option String
  successURL : Option String
  checkoutURL : Option String
  createdAt : Option String
  updatedAt : Option String
  expiresOn : Option String

/-- `json.Marshal` of a `CheckoutResponse`, fields in declaration order. -/
def marshalCheckoutResponse (r : CheckoutResponse) : Json :=
  .obj (optField "object" (Option.map Json.str r.object)
    ++ optField "units" (Option.map Json.num r.units)
    ++ mapField "metadata" r.metadata
    ++ optField "status" (Option.map Json.str r.status)
    ++ optField "mode" (Option.map Json.str r.mode)
    ++ optField "payment_id" (Option.map Json.str r.paymentID)
    ++ optField "product_id" (Option.map Json.str r.productID)
    ++ optField "request_id" (Option.map Json.str r.requestID)
    ++ optField "success_url" (Option.map Json.str r.successURL)
    ++ optField "checkout_url" (Option.map Json.str r.checkoutURL)
    ++ optField "created_at" (Option.map Json.str r.createdAt)
    ++ optField "updated_at" (Option.map Json.str r.updatedAt)
    ++ optField "expires_on" (Option.map Json.str r.expiresOn))

/-- `json.Unmarshal` of a JSON tree into a `CheckoutResponse`. -/
def unmarshalCheckoutResponse (j : Json) : Option CheckoutResponse :=
  match j with
  | .null => some ⟨none, none, none, none, none, none, none, none, none, none, none, none, none⟩
  | .obj fields =>
      match
        readStringPtr (lookupLast fields "object"),
        readIntPtr (lookupLast fields "units"),
        readMetadata (lookupLast fields "metadata"),
        readStringPtr (lookupLast fields "status"),
        readStringPtr (lookupLast fields "mode"),
        readStringPtr (lookupLast fields "payment_id"),
        readStringPtr (lookupLast fields "product_id"),
        readStringPtr (lookupLast fields "request_id"),
        readStringPtr (lookupLast fields "success_url"),
        readStringPtr (lookupLast fields "checkout_url"),
        readStringPtr (lookupLast fields "created_at"),
        readStringPtr (lookupLast fields "updated_at"),
        readStringPtr (lookupLast fields "expires_on") with
      | some object, some units, some metadata, some status, some mode, some paymentID, some productID, some requestID, some successURL, some checkoutURL, some createdAt, some updatedAt, some expiresOn =>
          some ⟨object, units, metadata, status, mode, paymentID, productID, requestID, successURL, checkoutURL, createdAt, updatedAt, expiresOn⟩
      | _, _, _, _, _, _, _, _, _, _, _, _, _ => none
  | _ => none

/-- `CreateProductRequest` (models.go).  All fields plain, no `omitempty`. -/
structure CreateProductRequest where
  name : String
  description : String
  price : GoFloat
  currency : String
  billingType : String
  taxInclusive : Bool
  taxCategory : String
  recurringInterval : String
  trialDays : Int

/-- `json.Marshal` of a `CreateProductRequest`, fields in declaration order. -/
def marshalCreateProductRequest (r : CreateProductRequest) : Json :=
  .obj (optField "name" (some (Json.str r.name))
    ++ optField "description" (some (Json.str r.description))
    ++ optField "price" (some (Json.fnum r.price))
    ++ optField "currency" (some (Json.str r.currency))
    ++ optField "billing_type" (some (Json.str r.billingType))
    ++ optField "tax_inclusive" (some (Json.boolean r.taxInclusive))
    ++ optField "tax_category" (some (Json.str r.taxCategory))
    ++ optField "recurring_interval" (some (Json.str r.recurringInterval))
    ++ optField "trial_days" (some (Json.num r.trialDays)))

/-- `json.Unmarshal` of a JSON tree into a `CreateProductRequest`. -/
def unmarshalCreateProductRequest (j : Json) : Option CreateProductRequest :=
  match j with
  | .null => some ⟨"", "", ⟨"0"⟩, "", "", false, "", "", 0⟩
  | .obj fields =>
      match
        readString (lookupLast fields "name"),
        readString (lookupLast fields "description"),
        readFloat (lookupLast fields "price"),
        readString (lookupLast fields "currency"),
        readString (lookupLast fields "billing_type"),
        readBool (lookupLast fields "tax_inclusive"),
        readString (lookupLast fields "tax_category"),
        readString (lookupLast fields "recurring_interval"),
        readInt (lookupLast fields "trial_days") with
      | some name, some description, some price, some currency, some billingType, some taxInclusive, some taxCategory, some recurringInterval, some trialDays =>
          some ⟨name, description, price, currency, billingType, taxInclusive, taxCategory, recurringInterval, trialDays⟩
      | _, _, _, _, _, _, _, _, _ => none
  | _ => none

/-- `Product` (models.go).  Every field a pointer with `omitempty`. -/
structure Product where
  name : Option String
  description : Option String
  price : Option GoFloat
  currency : Option String
  object : Option String
  mode : Option String
  productID : Option String
  storeID : Option String
  productURL : Option String
  billingType : Option String
  billingPeriod : Option String
  taxCategory : Option String
  taxInclusive : Option Bool
  isArchive : Option Bool
  createdAt : Option String
  updatedAt : Option String
  trialDays : Option Int
  recurringInterval : Option String

/-- `json.Marshal` of a `Product`, fields in declaration order. -/
def marshalProduct (r : Product) : Json :=
  .obj (optField "name" (Option.map Json.str r.name)
    ++ optField "description" (Option.map Json.str r.description)
    ++ optField "price" (Option.map Json.fnum r.price)
    ++ optField "currency" (Option.map Json.str r.currency)
    ++ optField "object" (Option.map Json.str r.object)
    ++ optField "mode" (Option.map Json.str r.mode)
    ++ optField "product_id" (Option.map Json.str r.productID)
    ++ optField "store_id" (Option.map Json.str r.storeID)
    ++ optField "product_url" (Option.map Json.str r.productURL)
    ++ optField "billing_type" (Option.map Json.str r.billingType)
    ++ optField "billing_period" (Option.map Json.str r.billingPeriod)
    ++ optField "tax_category" (Option.map Json.str r.taxCategory)
    ++ optField "tax_inclusive" (Option.map Json.boolean r.taxInclusive)
    ++ optField "is_archive" (Option.map Json.boolean r.isArchive)
    ++ optField "created_at" (Option.map Json.str r.createdAt)
    ++ optField "updated_at" (Option.map Json.str r.updatedAt)
    ++ optField "trial_days" (Option.map Json.num r.trialDays)
    ++ optField "recurring_interval" (Option.map Json.str r.recurringInterval))

/-- `json.Unmarshal` of a JSON tree into a `Product`. -/
def unmarshalProduct (j : Json) : Option Product :=
  match j with
  | .null => some ⟨none, none, none, none, none, none, none, none, none, none, none, none, none, none, none, none, none, none⟩
  | .obj fields =>
      match
        readStringPtr (lookupLast fields "name"),
        readStringPtr (lookupLast fields "description"),
        readFloatPtr (lookupLast fields "price"),
        readStringPtr (lookupLast fields "currency"),
        readStringPtr (lookupLast fields "object"),
        readStringPtr (lookupLast fields "mode"),
        readStringPtr (lookupLast fields "product_id"),
        readStringPtr (lookupLast fields "store_id"),
        readStringPtr (lookupLast fields "product_url"),
        readStringPtr (lookupLast fields "billing_type"),
        readStringPtr (lookupLast fields "billing_period"),
        readStringPtr (lookupLast fields "tax_category"),
        readBoolPtr (lookupLast fields "tax_inclusive"),
        readBoolPtr (lookupLast fields "is_archive"),
        readStringPtr (lookupLast fields "created_at"),
        readStringPtr (lookupLast fields "updated_at"),
        readIntPtr (lookupLast fields "trial_days"),
        readStringPtr (lookupLast fields "recurring_interval") with
      | some name, some description, some price, some currency, some object, some mode, some productID, some storeID, some productURL, some billingType, some billingPeriod, some taxCategory, some taxInclusive, some isArchive, some createdAt, some updatedAt, some trialDays, some recurringInterval =>
          some ⟨name, description, price, currency, object, mode, productID, storeID, productURL, billingType, billingPeriod, taxCategory, taxInclusive, isArchive, createdAt, updatedAt, trialDays, recurringInterval⟩
      | _, _, _, _, _, _, _, _, _, _, _, _, _, _, _, _, _, _ => none
  | _ => none

/-- `UpdateProductRequest` (models.go).  All fields plain, no `omitempty`. -/
structure UpdateProductRequest where
  productID : String
  name : String
  description : String
  price : GoFloat
  currency : String
  billingType : String
  taxInclusive : Bool
  taxCategory : String
  recurringInterval : String
  trialDays : Int

/-- `json.Marshal` of a `UpdateProductRequest`, fields in declaration order. -/
def marshalUpdateProductRequest (r : UpdateProductRequest) : Json :=
  .obj (optField "product_id" (some (Json.str r.productID))
    ++ optField "name" (some (Json.str r.name))
    ++ optField "description" (some (Json.str r.description))
    ++ optField "price" (some (Json.fnum r.price))
    ++ optField "currency" (some (Json.str r.currency))
    ++ optField "billing_type" (some (Json.str r.billingType))
    ++ optField "tax_inclusive" (some (Json.boolean r.taxInclusive))
    ++ optField "tax_category" (some (Json.str r.taxCategory))
    ++ optField "recurring_interval" (some (Json.str r.recurringInterval))
    ++ optField "trial_days" (some (Json.num r.trialDays)))

/-- `json.Unmarshal` of a JSON tree into a `UpdateProductRequest`. -/
def unmarshalUpdateProductRequest (j : Json) : Option UpdateProductRequest :=
  match j with
  | .null => some ⟨"", "", "", ⟨"0"⟩, "", "", false, "", "", 0⟩
  | .obj fields =>
      match
        readString (lookupLast fields "product_id"),
        readString (lookupLast fields "name"),
        readString (lookupLast fields "description"),
        readFloat (lookupLast fields "price"),
        readString (lookupLast fields "currency"),
        readString (lookupLast fields "billing_type"),
        readBool (lookupLast fields "tax_inclusive"),
        readString (lookupLast fields "tax_category"),
        readString (lookupLast fields "recurring_interval"),
        readInt (lookupLast fields "trial_days") with
      | some productID, some name, some description, some price, some currency, some billingType, some taxInclusive, some taxCategory, some recurringInterval, some trialDays =>
          some ⟨productID, name, description, price, currency, billingType, taxInclusive, taxCategory, recurringInterval, trialDays⟩
      | _, _, _, _, _, _, _, _, _, _ => none
  | _ => none

/-- `Transaction` (models.go). -/
structure Transaction where
  object : Option String
  orderID : Option String
  transactionID : Option String
  amount : Option GoFloat
  amountPaid : Option GoFloat
  discountAmount : Option GoFloat
  currency : Option String
  taxAmount : Option GoFloat
  taxCountry : Option String
  refundedAmount : Option GoFloat
  type : Option String
  customer : Option TransactionCustomer
  createdAt : Option String
  updatedAt : Option String
  remark : Option String
  mode : Option String
  fees : Option GoFloat
  tax : Option GoFloat
  net : Option GoFloat

/-- `json.Marshal` of a `Transaction`, fields in declaration order. -/
def marshalTransaction (r : Transaction) : Json :=
  .obj (optField "object" (Option.map Json.str r.object)
    ++ optField "order_id" (Option.map Json.str r.orderID)
    ++ optField "transaction_id" (Option.map Json.str r.transactionID)
    ++ optField "amount" (Option.map Json.fnum r.amount)
    ++ optField "amount_paid" (Option.map Json.fnum r.amountPaid)
    ++ optField "discount_amount" (Option.map Json.fnum r.discountAmount)
    ++ optField "currency" (Option.map Json.str r.currency)
    ++ optField "tax_amount" (Option.map Json.fnum r.taxAmount)
    ++ optField "tax_country" (Option.map Json.str r.taxCountry)
    ++ optField "refunded_amount" (Option.map Json.fnum r.refundedAmount)
    ++ optField "type" (Option.map Json.str r.type)
    ++ optField "customer" (Option.map marshalTransactionCustomer r.customer)
    ++ optField "created_at" (Option.map Json.str r.createdAt)
    ++ optField "updated_at" (Option.map Json.str r.updatedAt)
    ++ optField "remark" (Option.map Json.str r.remark)
    ++ optField "mode" (Option.map Json.str r.mode)
    ++ optField "fees" (Option.map Json.fnum r.fees)
    ++ optField "tax" (Option.map Json.fnum r.tax)
    ++ optField "net" (Option.map Json.fnum r.net))

/-- `json.Unmarshal` of a JSON tree into a `Transaction`. -/
def unmarshalTransaction (j : Json) : Option Transaction :=
  match j with
  | .null => some ⟨none, none, none, none, none, none, none, none, none, none, none, none, none, none, none, none, none, none, none⟩
  | .obj fields =>
      match
        readStringPtr (lookupLast fields "object"),
        readStringPtr (lookupLast fields "order_id"),
        readStringPtr (lookupLast fields "transaction_id"),
        readFloatPtr (lookupLast fields "amount"),
        readFloatPtr (lookupLast fields "amount_paid"),
        readFloatPtr (lookupLast fields "discount_amount"),
        readStringPtr (lookupLast fields "currency"),
        readFloatPtr (lookupLast fields "tax_amount"),
        readStringPtr (lookupLast fields "tax_country"),
        readFloatPtr (lookupLast fields "refunded_amount"),
        readStringPtr (lookupLast fields "type"),
        readTransactionCustomerPtr (lookupLast fields "customer"),
        readStringPtr (lookupLast fields "created_at"),
        readStringPtr (lookupLast fields "updated_at"),
        readStringPtr (lookupLast fields "remark"),
        readStringPtr (lookupLast fields "mode"),
        readFloatPtr (lookupLast fields "fees"),
        readFloatPtr (lookupLast fields "tax"),
        readFloatPtr (lookupLast fields "net") with
      | some object, some orderID, some transactionID, some amount, some amountPaid, some discountAmount, some currency, some taxAmount, some taxCountry, some refundedAmount, some type, some customer, some createdAt, some updatedAt, some remark, some mode, some fees, some tax, some net =>
          some ⟨object, orderID, transactionID, amount, amountPaid, discountAmount, currency, taxAmount, taxCountry, refundedAmount, type, customer, createdAt, updatedAt, remark, mode, fees, tax, net⟩
      | _, _, _, _, _, _, _, _, _, _, _, _, _, _, _, _, _, _, _ => none
  | _ => none

/-- `Subscription` (models.go). -/
structure Subscription where
  object : Option String
  status : Option String
  remark : Option String
  customer : Option SubscriptionCustomer
  mode : Option String
  amount : Option GoFloat
  last4 : Option String
  subscriptionID : Option String
  productID : Option String
  storeID : Option String
  billingPeriodStart : Option String
  billingPeriodEnd : Option String
  cancelAt : Option String
  trialStart : Option String
  trialEnd : Option String
  units : Option Int
  createdAt : Option String
  updatedAt : Option String
  productName : Option String
  paymentMethod : Option String
  nextBillingAmount : Option GoFloat
  recurringInterval : Option String

/-- `json.Marshal` of a `Subscription`, fields in declaration order. -/
def marshalSubscription (r : Subscription) : Json :=
  .obj (optField "object" (Option.map Json.str r.object)
    ++ optField "status" (Option.map Json.str r.status)
    ++ optField "remark" (Option.map Json.str r.remark)
    ++ optField "customer" (Option.map marshalSubscriptionCustomer r.customer)
    ++ optField "mode" (Option.map Json.str r.mode)
    ++ optField "amount" (Option.map Json.fnum r.amount)
    ++ optField "last4" (Option.map Json.str r.last4)
    ++ optField "subscription_id" (Option.map Json.str r.subscriptionID)
    ++ optField "product_id" (Option.map Json.str r.productID)
    ++ optField "store_id" (Option.map Json.str r.storeID)
    ++ optField "billing_period_start" (Option.map Json.str r.billingPeriodStart)
    ++ optField "billing_period_end" (Option.map Json.str r.billingPeriodEnd)
    ++ optField "cancel_at" (Option.map Json.str r.cancelAt)
    ++ optField "trial_start" (Option.map Json.str r.trialStart)
    ++ optField "trial_end" (Option.map Json.str r.trialEnd)
    ++ optField "units" (Option.map Json.num r.units)
    ++ optField "created_at" (Option.map Json.str r.createdAt)
    ++ optField "updated_at" (Option.map Json.str r.updatedAt)
    ++ optField "product_name" (Option.map Json.str r.productName)
    ++ optField "payment_method" (Option.map Json.str r.paymentMethod)
    ++ optField "next_billing_amount" (Option.map Json.fnum r.nextBillingAmount)
    ++ optField "recurring_interval" (Option.map Json.str r.recurringInterval))

/-- `json.Unmarshal` of a JSON tree into a `Subscription`. -/
def unmarshalSubscription (j : Json) : Option Subscription :=
  match j with
  | .null => some ⟨none, none, none, none, none, none, none, none, none, none, none, none, none, none, none, none, none, none, none, none, none, none⟩
  | .obj fields =>
      match
        readStringPtr (lookupLast fields "object"),
        readStringPtr (lookupLast fields "status"),
        readStringPtr (lookupLast fields "remark"),
        readSubscriptionCustomerPtr (lookupLast fields "customer"),
        readStringPtr (lookupLast fields "mode"),
        readFloatPtr (lookupLast fields "amount"),
        readStringPtr (lookupLast fields "last4"),
        readStringPtr (lookupLast fields "subscription_id"),
        readStringPtr (lookupLast fields "product_id"),
        readStringPtr (lookupLast fields "store_id"),
        readStringPtr (lookupLast fields "billing_period_start"),
        readStringPtr (lookupLast fields "billing_period_end"),
        readStringPtr (lookupLast fields "cancel_at"),
        readStringPtr (lookupLast fields "trial_start"),
        readStringPtr (lookupLast fields "trial_end"),
        readIntPtr (lookupLast fields "units"),
        readStringPtr (lookupLast fields "created_at"),
        readStringPtr (lookupLast fields "updated_at"),
        readStringPtr (lookupLast fields "product_name"),
        readStringPtr (lookupLast fields "payment_method"),
        readFloatPtr (lookupLast fields "next_billing_amount"),
        readStringPtr (lookupLast fields "recurring_interval") with
      | some object, some status, some remark, some customer, some mode, some amount, some last4, some subscriptionID, some productID, some storeID, some billingPeriodStart, some billingPeriodEnd, some cancelAt, some trialStart, some trialEnd, some units, some createdAt, some updatedAt, some productName, some paymentMethod, some nextBillingAmount, some recurringInterval =>
          some ⟨object, status, remark, customer, mode, amount, last4, subscriptionID, productID, storeID, billingPeriodStart, billingPeriodEnd, cancelAt, trialStart, trialEnd, units, createdAt, updatedAt, productName, paymentMethod, nextBillingAmount, recurringInterval⟩
      | _, _, _, _, _, _, _, _, _, _, _, _, _, _, _, _, _, _, _, _, _, _ => none
  | _ => none

/-- `CustomerData` (models.go). -/
structure CustomerData where
  id : Option Int
  name : Option String
  email : Option String
  remark : Option String
  subscriptions : Option Int
  payments : Option Int
  storeID : Option String
  totalSpend : Option GoFloat
  createdAt : Option String
  updatedAt : Option String

/-- `json.Marshal` of a `CustomerData`, fields in declaration order. -/
def marshalCustomerData (r : CustomerData) : Json :=
  .obj (optField "id" (Option.map Json.num r.id)
    ++ optField "name" (Option.map Json.str r.name)
    ++ optField "email" (Option.map Json.str r.email)
    ++ optField "remark" (Option.map Json.str r.remark)
    ++ optField "subscriptions" (Option.map Json.num r.subscriptions)
    ++ optField "payments" (Option.map Json.num r.payments)
    ++ optField "store_id" (Option.map Json.str r.storeID)
    ++ optField "total_spend" (Option.map Json.fnum r.totalSpend)
    ++ optField "created_at" (Option.map Json.str r.createdAt)
    ++ optField "updated_at" (Option.map Json.str r.updatedAt))

/-- `json.Unmarshal` of a JSON tree into a `CustomerData`. -/
def unmarshalCustomerData (j : Json) : Option CustomerData :=
  match j with
  | .null => some ⟨none, none, none, none, none, none, none, none, none, none⟩
  | .obj fields =>
      match
        readIntPtr (lookupLast fields "id"),
        readStringPtr (lookupLast fields "name"),
        readStringPtr (lookupLast fields "email"),
        readStringPtr (lookupLast fields "remark"),
        readIntPtr (lookupLast fields "subscriptions"),
        readIntPtr (lookupLast fields "payments"),
        readStringPtr (lookupLast fields "store_id"),
        readFloatPtr (lookupLast fields "total_spend"),
        readStringPtr (lookupLast fields "created_at"),
        readStringPtr (lookupLast fields "updated_at") with
      | some id, some name, some email, some remark, some subscriptions, some payments, some storeID, some totalSpend, some createdAt, some updatedAt =>
          some ⟨id, name, email, remark, subscriptions, payments, storeID, totalSpend, createdAt, updatedAt⟩
      | _, _, _, _, _, _, _, _, _, _ => none
  | _ => none

/-- `ProductListResponse` (models.go).  `items` models the Go `[]Product` slice: `none` is the nil slice (marshalled `null`), `some l` a non-nil slice. -/
structure ProductListResponse where
  total : Int
  items : Option (List Product)
  code : Int
  msg : String

/-- `json.Marshal` of a `ProductListResponse`, fields in declaration order. -/
def marshalProductListResponse (r : ProductListResponse) : Json :=
  .obj (optField "total" (some (Json.num r.total))
    ++ optField "items" (some (itemsJson r.items marshalProduct))
    ++ optField "code" (some (Json.num r.code))
    ++ optField "msg" (some (Json.str r.msg)))

/-- `json.Unmarshal` of a JSON tree into a `ProductListResponse`. -/
def unmarshalProductListResponse (j : Json) : Option ProductListResponse :=
  match j with
  | .null => some ⟨0, none, 0, ""⟩
  | .obj fields =>
      match
        readInt (lookupLast fields "total"),
        readItems unmarshalProduct (lookupLast fields "items"),
        readInt (lookupLast fields "code"),
        readString (lookupLast fields "msg") with
      | some total, some items, some code, some msg =>
          some ⟨total, items, code, msg⟩
      | _, _, _, _ => none
  | _ => none

/-- `TransactionListResponse` (models.go).  `items` models the Go `[]Transaction` slice: `none` is the nil slice (marshalled `null`), `some l` a non-nil slice. -/
structure TransactionListResponse where
  total : Int
  items : Option (List Transaction)
  code : Int
  msg : String

/-- `json.Marshal` of a `TransactionListResponse`, fields in declaration order. -/
def marshalTransactionListResponse (r : TransactionListResponse) : Json :=
  .obj (optField "total" (some (Json.num r.total))
    ++ optField "items" (some (itemsJson r.items marshalTransaction))
    ++ optField "code" (some (Json.num r.code))
    ++ optField "msg" (some (Json.str r.msg)))

/-- `json.Unmarshal` of a JSON tree into a `TransactionListResponse`. -/
def unmarshalTransactionListResponse (j : Json) : Option TransactionListResponse :=
  match j with
  | .null => some ⟨0, none, 0, ""⟩
  | .obj fields =>
      match
        readInt (lookupLast fields "total"),
        readItems unmarshalTransaction (lookupLast fields "items"),
        readInt (lookupLast fields "code"),
        readString (lookupLast fields "msg") with
      | some total, some items, some code, some msg =>
          some ⟨total, items, code, msg⟩
      | _, _, _, _ => none
  | _ => none

/-- `SubscriptionListResponse` (models.go).  `items` models the Go `[]Subscription` slice: `none` is the nil slice (marshalled `null`), `some l` a non-nil slice. -/
structure SubscriptionListResponse where
  total : Int
  items : Option (List Subscription)
  code : Int
  msg : String

/-- `json.Marshal` of a `SubscriptionListResponse`, fields in declaration order. -/
def marshalSubscriptionListResponse (r : SubscriptionListResponse) : Json :=
  .obj (optField "total" (some (Json.num r.total))
    ++ optField "items" (some (itemsJson r.items marshalSubscription))
    ++ optField "code" (some (Json.num r.code))
    ++ optField "msg" (some (Json.str r.msg)))

/-- `json.Unmarshal` of a JSON tree into a `SubscriptionListResponse`. -/
def unmarshalSubscriptionListResponse (j : Json) : Option SubscriptionListResponse :=
  match j with
  | .null => some ⟨0, none, 0, ""⟩
  | .obj fields =>
      match
        readInt (lookupLast fields "total"),
        readItems unmarshalSubscription (lookupLast fields "items"),
        readInt (lookupLast fields "code"),
        readString (lookupLast fields "msg") with
      | some total, some items, some code, some msg =>
          some ⟨total, items, code, msg⟩
      | _, _, _, _ => none
  | _ => none

/-- `CustomerListResponse` (models.go).  `items` models the Go `[]CustomerData` slice: `none` is the nil slice (marshalled `null`), `some l` a non-nil slice. -/
structure CustomerListResponse where
  total : Int
  items : Option (List CustomerData)
  code : Int
  msg : String

/-- `json.Marshal` of a `CustomerListResponse`, fields in declaration order. -/
def marshalCustomerListResponse (r : CustomerListResponse) : Json :=
  .obj (optField "total" (some (Json.num r.total))
    ++ optField "items" (some (itemsJson r.items marshalCustomerData))
    ++ optField "code" (some (Json.num r.code))
    ++ optField "msg" (some (Json.str r.msg)))

/-- `json.Unmarshal` of a JSON tree into a `CustomerListResponse`. -/
def unmarshalCustomerListResponse (j : Json) : Option CustomerListResponse :=
  match j with
  | .null => some ⟨0, none, 0, ""⟩
  | .obj fields =>
      match
        readInt (lookupLast fields "total"),
        readItems unmarshalCustomerData (lookupLast fields "items"),
        readInt (lookupLast fields "code"),
        readString (lookupLast fields "msg") with
      | some total, some items, some code, some msg =>
          some ⟨total, items, code, msg⟩
      | _, _, _, _ => none
  | _ => none

/-! ## Error taxonomy (`errors.go`) -/

/-- `APIError` (models.go): the structured API error payload
`{code: integer, message: string, details?: string}`. -/
structure APIErrorPayload where
  code : Int
  message : String
  details : String
deriving Repr, DecidableEq

/-- `json.Marshal` of a `APIErrorPayload`, fields in declaration order. -/
def marshalAPIErrorPayload (r : APIErrorPayload) : Json :=
  .obj (optField "code" (some (Json.num r.code))
    ++ optField "message" (some (Json.str r.message))
    ++ optField "details" (if r.details = "" then none else some (Json.str r.details)))

/-- `json.Unmarshal` of a JSON tree into a `APIErrorPayload`. -/
def unmarshalAPIErrorPayload (j : Json) : Option APIErrorPayload :=
  match j with
  | .null => some ⟨0, "", ""⟩
  | .obj fields =>
      match
        readInt (lookupLast fields "code"),
        readString (lookupLast fields "message"),
        readString (lookupLast fields "details") with
      | some code, some message, some details =>
          some ⟨code, message, details⟩
      | _, _, _ => none
  | _ => none

/-- The fields of `BagelPayAPIError` (errors.go): the embedded
`BagelPayError.Message`, the HTTP `StatusCode`, the `ErrorCode` string and
the original structured payload (`nil` ↦ `none`).  The `Cause` is `nil` on
every path modelled here and is not carried. -/
structure APIErrorFields where
  message : String
  statusCode : Int
  errorCode : String
  apiError : Option APIErrorPayload
deriving Repr, DecidableEq

/-- A BagelPay SDK error value, tagged by its **dynamic Go type**: one
constructor per concrete error struct.  Go type assertions
(`err.(*BagelPayAuthenticationError)` etc.) test exactly this tag. -/
inductive BagelPayErr where
  | base (message : String)
  | api (e : APIErrorFields)
  | auth (e : APIErrorFields)
  | validation (e : APIErrorFields)
  | notFound (e : APIErrorFields)
  | rateLimit (e : APIErrorFields)
  | server (e : APIErrorFields)
deriving Repr, DecidableEq

/-- `NewBagelPayAPIError` (errors.go): message defaults to
`"API request failed"` for nil payloads, else the payload message;
`ErrorCode` is the payload code stringified when non-zero, else `""`. -/
def NewBagelPayAPIError (statusCode : Int) (apiError : Option APIErrorPayload) :
    BagelPayErr :=
  let message := match apiError with
    | some a => a.message
    | none => "API request failed"
  let errorCode := match apiError with
    | some a => if a.code ≠ 0 then toString a.code else ""
    | none => ""
  .api { message := message, statusCode := statusCode,
         errorCode := errorCode, apiError := apiError }

/-- `NewBagelPayAuthenticationError` (errors.go): status code defaults to
401 when 0. -/
def NewBagelPayAuthenticationError (message : String) (statusCode : Int)
    (errorCode : String) (apiError : Option APIErrorPayload) : BagelPayErr :=
  .auth { message := message,
          statusCode := if statusCode = 0 then 401 else statusCode,
          errorCode := errorCode, apiError := apiError }

/-- `NewBagelPayAuthenticationErrorSimple` (errors.go). -/
def NewBagelPayAuthenticationErrorSimple (message : String) : BagelPayErr :=
  NewBagelPayAuthenticationError message 401 "" none

/-- `NewBagelPayValidationError` (errors.go): status code defaults to 400
when 0. -/
def NewBagelPayValidationError (message : String) (statusCode : Int)
    (errorCode : String) (apiError : Option APIErrorPayload) : BagelPayErr :=
  .validation { message := message,
                statusCode := if statusCode = 0 then 400 else statusCode,
                errorCode := errorCode, apiError := apiError }

/-- `NewBagelPayValidationErrorSimple` (errors.go). -/
def NewBagelPayValidationErrorSimple (message : String) : BagelPayErr :=
  NewBagelPayValidationError message 400 "" none

/-- `NewBagelPayNotFoundError` (errors.go): status code defaults to 404
when 0. -/
def NewBagelPayNotFoundError (message : String) (statusCode : Int)
    (errorCode : String) (apiError : Option APIErrorPayload) : BagelPayErr :=
  .notFound { message := message,
              statusCode := if statusCode = 0 then 404 else statusCode,
              errorCode := errorCode, apiError := apiError }

/-- `NewBagelPayNotFoundErrorSimple` (errors.go). -/
def NewBagelPayNotFoundErrorSimple (message : String) : BagelPayErr :=
  NewBagelPayNotFoundError message 404 "" none

/-- `NewBagelPayRateLimitError` (errors.go): status code defaults to 429
when 0. -/
def NewBagelPayRateLimitError (message : String) (statusCode : Int)
    (errorCode : String) (apiError : Option APIErrorPayload) : BagelPayErr :=
  .rateLimit { message := message,
               statusCode := if statusCode = 0 then 429 else statusCode,
               errorCode := errorCode, apiError := apiError }

/-- `NewBagelPayRateLimitErrorSimple` (errors.go). -/
def NewBagelPayRateLimitErrorSimple (message : String) : BagelPayErr :=
  NewBagelPayRateLimitError message 429 "" none

/-- `NewBagelPayServerError` (errors.go): status code defaults to 500
when 0. -/
def NewBagelPayServerError (message : String) (statusCode : Int)
    (errorCode : String) (apiError : Option APIErrorPayload) : BagelPayErr :=
  .server { message := message,
            statusCode := if statusCode = 0 then 500 else statusCode,
            errorCode := errorCode, apiError := apiError }

/-- `NewBagelPayServerErrorSimple` (errors.go): unlike the other `Simple`
constructors it passes the **actual** status code through. -/
def NewBagelPayServerErrorSimple (statusCode : Int) (message : String) :
    BagelPayErr :=
  NewBagelPayServerError message statusCode "" none

/-- `IsAuthenticationError` (errors.go): the Go type assertion
`err.(*BagelPayAuthenticationError)`, true exactly for that dynamic type. -/
def IsAuthenticationError (e : BagelPayErr) : Bool :=
  match e with
  | .auth _ => true
  | _ => false

/-- `IsValidationError` (errors.go): `err.(*BagelPayValidationError)`. -/
def IsValidationError (e : BagelPayErr) : Bool :=
  match e with
  | .validation _ => true
  | _ => false

/-- `IsNotFoundError` (errors.go): `err.(*BagelPayNotFoundError)`. -/
def IsNotFoundError (e : BagelPayErr) : Bool :=
  match e with
  | .notFound _ => true
  | _ => false

/-- `IsRateLimitError` (errors.go): `err.(*BagelPayRateLimitError)`. -/
def IsRateLimitError (e : BagelPayErr) : Bool :=
  match e with
  | .rateLimit _ => true
  | _ => false

/-- `IsServerError` (errors.go): `err.(*BagelPayServerError)`. -/
def IsServerError (e : BagelPayErr) : Bool :=
  match e with
  | .server _ => true
  | _ => false

/-- `IsAPIError` (errors.go): the Go type assertion
`err.(*BagelPayAPIError)`.  A Go type assertion to a concrete (non-interface)
type succeeds only when the dynamic type is exactly `*BagelPayAPIError`;
a `*BagelPayAuthenticationError` value (which merely **embeds**
`*BagelPayAPIError`) fails this assertion. -/
def IsAPIError (e : BagelPayErr) : Bool :=
  match e with
  | .api _ => true
  | _ => false

/-- The error kind (dynamic Go type tag) of an SDK error. -/
inductive ErrKind where
  | base
  | api
  | auth
  | validation
  | notFound
  | rateLimit
  | server
deriving Repr, DecidableEq

/-- Dynamic type tag of an error value. -/
def kindOf (e : BagelPayErr) : ErrKind :=
  match e with
  | .base _ => .base
  | .api _ => .api
  | .auth _ => .auth
  | .validation _ => .validation
  | .notFound _ => .notFound
  | .rateLimit _ => .rateLimit
  | .server _ => .server

/-- The embedded `BagelPayError.Message` of an error value. -/
def errMessage (e : BagelPayErr) : String :=
  match e with
  | .base m => m
  | .api f | .auth f | .validation f | .notFound f | .rateLimit f
  | .server f => f.message

/-- The API-error fields of an error value (`none` for the base type,
which has none). -/
def apiFieldsOf (e : BagelPayErr) : Option APIErrorFields :=
  match e with
  | .base _ => none
  | .api f | .auth f | .validation f | .notFound f | .rateLimit f
  | .server f => some f

/-! ## Transport client (`client.go`) -/

/-- `ClientConfig` (client.go).  `Timeout` is in nanoseconds (Go
`time.Duration`), `0` meaning unset; `httpClient` models the optional
custom `*http.Client` by its timeout (`none` = no custom client). -/
structure ClientConfig where
  apiKey : String
  testMode : Bool
  baseURL : String
  timeout : Nat
  httpClient : Option Nat
deriving Repr, DecidableEq

/-- The stored state of a `BagelPayClient` (client.go): resolved base URL,
API key, and the timeout of the HTTP client in use. -/
structure BagelPayClient where
  baseURL : String
  apiKey : String
  httpTimeout : Nat
deriving Repr, DecidableEq

/-- Go `strings.TrimSuffix s suffix`: removes **one** trailing occurrence
of `suffix`, when present (computed on the character list). -/
def trimSuffix (s suffix : String) : String :=
  if suffix.toList.isSuffixOf s.toList then
    String.mk (s.toList.take (s.toList.length - suffix.toList.length))
  else s

/-- One second of Go `time.Duration`, in nanoseconds. -/
def goSecond : Nat := 1000000000

/-- `NewClient` (client.go): empty `BaseURL` falls back to the test or live
default URL according to `TestMode`; a trailing `/` is trimmed; a zero
timeout defaults to 30 seconds; a custom HTTP client, when supplied, is
used as-is (its own timeout wins). -/
def NewClient (config : ClientConfig) : BagelPayClient :=
  let baseURL :=
    if config.baseURL = "" then
      if config.testMode then "https://test.bagelpay.io"
      else "https://live.bagelpay.io"
    else config.baseURL
  let baseURL := trimSuffix baseURL "/"
  let timeout := if config.timeout = 0 then 30 * goSecond else config.timeout
  let httpTimeout :=
    match config.httpClient with
    | some t => t
    | none => timeout
  { baseURL := baseURL, apiKey := config.apiKey, httpTimeout := httpTimeout }

/-- The query-parameter merge of `makeRequest` (client.go lines 79-88):
starting from the existing query pairs of the URL, every supplied parameter
with a non-empty value is added; empty-valued parameters are skipped.  (The Go
`url.Values.Encode` then sorts by key; ordering is immaterial here and the
insertion order is kept.) -/
def addQueryParams (existing : List (String × String))
    (params : Option (List (String × String))) : List (String × String) :=
  match params with
  | none => existing
  | some ps => existing ++ ps.filter (fun kv => kv.2 ≠ "")

/-- The `params` map built identically by `ListProducts`,
`ListTransactions`, `ListSubscriptions` and `ListCustomers` (client.go):
`pageSize` then `pageNum`, each added only when positive. -/
def listPageParams (pageNum pageSize : Int) : List (String × String) :=
  (if pageSize > 0 then [("pageSize", toString pageSize)] else [])
  ++ (if pageNum > 0 then [("pageNum", toString pageNum)] else [])

/-- The query parameters `ListProducts` (client.go) passes to
`makeRequest`. -/
def listProductsParams (pageNum pageSize : Int) : List (String × String) :=
  listPageParams pageNum pageSize

/-- The query parameters `ListTransactions` (client.go) passes to
`makeRequest`. -/
def listTransactionsParams (pageNum pageSize : Int) : List (String × String) :=
  listPageParams pageNum pageSize

/-- The query parameters `ListSubscriptions` (client.go) passes to
`makeRequest`. -/
def listSubscriptionsParams (pageNum pageSize : Int) : List (String × String) :=
  listPageParams pageNum pageSize

/-- The query parameters `ListCustomers` (client.go) passes to
`makeRequest`. -/
def listCustomersParams (pageNum pageSize : Int) : List (String × String) :=
  listPageParams pageNum pageSize

/-- `GetProduct` endpoint (client.go):
`fmt.Sprintf("/api/products/%s", productID)` — plain interpolation, no URL
escaping. -/
def getProductEndpoint (productID : String) : String :=
  "/api/products/" ++ productID

/-- `ArchiveProduct` endpoint (client.go). -/
def archiveProductEndpoint (productID : String) : String :=
  "/api/products/" ++ productID ++ "/archive"

/-- `UnarchiveProduct` endpoint (client.go). -/
def unarchiveProductEndpoint (productID : String) : String :=
  "/api/products/" ++ productID ++ "/unarchive"

/-- `GetSubscription` endpoint (client.go). -/
def getSubscriptionEndpoint (subscriptionID : String) : String :=
  "/api/subscriptions/" ++ subscriptionID

/-- `CancelSubscription` endpoint (client.go). -/
def cancelSubscriptionEndpoint (subscriptionID : String) : String :=
  "/api/subscriptions/" ++ subscriptionID ++ "/cancel"

/-- Split a character list at the first occurrence of `c`: the part before,
and `some` rest after it (or `none` when `c` does not occur). -/
def splitAtFirstChar (c : Char) : List Char → List Char × Option (List Char)
  | [] => ([], none)
  | x :: xs =>
      if x = c then ([], some xs)
      else
        let r := splitAtFirstChar c xs
        (x :: r.1, r.2)

/-- The structural decomposition `net/url.Parse` applies to a URL string in
`makeRequest`: the fragment starts at the first `#`, and the query at the
first `?` before it (RFC 3986).  Result: (path-and-scheme part, raw query,
fragment). -/
def urlSplit (u : String) : String × String × String :=
  let (beforeFrag, frag) := splitAtFirstChar '#' u.toList
  let (path, query) := splitAtFirstChar '?' beforeFrag
  (String.mk path, String.mk (query.getD []), String.mk (frag.getD []))

/-- The pre-`?` part (scheme, host and path) of a URL string. -/
def urlPath (u : String) : String := (urlSplit u).1

/-- The raw query of a URL string. -/
def urlRawQuery (u : String) : String := (urlSplit u).2.1

/-- The fragment of a URL string. -/
def urlFragment (u : String) : String := (urlSplit u).2.2

/-- The synthesized fallback error payload of `handleResponse` (client.go
lines 133-138), used when the body does not parse as a structured
`APIError`: code is the HTTP status and the message is
`"HTTP <status>: <raw body>"`. -/
def fallbackPayload (statusCode : Int) (body : String) : APIErrorPayload :=
  { code := statusCode,
    message := "HTTP " ++ toString statusCode ++ ": " ++ body,
    details := "" }

/-- `handleResponse` (client.go), parameterised by the HTTP status, the
result of `json.Unmarshal`-ing the body as an `APIError` (`none` = parse
failure) and the raw body text.  Returns `some` classified error for
status ≥ 400 and `none` (success path) otherwise.  The dispatch mirrors the
Go `switch`: 401, 400, 404, 429, then the default branch distinguishing
status ≥ 500 from the generic API error. -/
def handleResponse (statusCode : Int) (parsed : Option APIErrorPayload)
    (body : String) : Option BagelPayErr :=
  if 400 ≤ statusCode then
    let apiError :=
      match parsed with
      | some a => a
      | none => fallbackPayload statusCode body
    if statusCode = 401 then
      some (NewBagelPayAuthenticationErrorSimple apiError.message)
    else if statusCode = 400 then
      some (NewBagelPayValidationErrorSimple apiError.message)
    else if statusCode = 404 then
      some (NewBagelPayNotFoundErrorSimple apiError.message)
    else if statusCode = 429 then
      some (NewBagelPayRateLimitErrorSimple apiError.message)
    else if 500 ≤ statusCode then
      some (NewBagelPayServerErrorSimple statusCode apiError.message)
    else
      some (NewBagelPayAPIError statusCode (some apiError))
  else
    none

/-! ## Webhook signature verifier (README webhook integration code)

`verifyWebhookSignature` recomputes `hex(HMAC-SHA256(secret,
"<timestamp>.<payload>"))` and compares it with the provided signature via
`hmac.Equal`.  SHA-256 (FIPS 180-4) and HMAC (FIPS 198-1, as implemented by
Go `crypto/hmac` / `crypto/sha256`) are embedded executably over byte
lists, with 32-bit words as `Nat` modulo `2 ^ 32`. -/

/-- Truncate to a 32-bit word. -/
def w32 (x : Nat) : Nat := x % 4294967296

/-- Truncate to a byte. -/
def w8 (x : Nat) : Nat := x % 256

/-- Right rotation of a 32-bit word by `n`. -/
def rotr32 (n x : Nat) : Nat := w32 ((x >>> n) ||| (x <<< (32 - n)))

/-- SHA-256 `Ch(x,y,z)`; bitwise complement within 32 bits is xor with the
all-ones word. -/
def shaCh (x y z : Nat) : Nat := (x &&& y) ^^^ ((x ^^^ 4294967295) &&& z)

/-- SHA-256 `Maj(x,y,z)`. -/
def shaMaj (x y z : Nat) : Nat := (x &&& y) ^^^ (x &&& z) ^^^ (y &&& z)

/-- SHA-256 `Σ₀`. -/
def bigSigma0 (x : Nat) : Nat := rotr32 2 x ^^^ rotr32 13 x ^^^ rotr32 22 x

/-- SHA-256 `Σ₁`. -/
def bigSigma1 (x : Nat) : Nat := rotr32 6 x ^^^ rotr32 11 x ^^^ rotr32 25 x

/-- SHA-256 `σ₀`. -/
def smallSigma0 (x : Nat) : Nat := rotr32 7 x ^^^ rotr32 18 x ^^^ (x >>> 3)

/-- SHA-256 `σ₁`. -/
def smallSigma1 (x : Nat) : Nat := rotr32 17 x ^^^ rotr32 19 x ^^^ (x >>> 10)

/-- The 64 SHA-256 round constants. -/
def shaK : List Nat :=
  [1116352408, 1899447441, 3049323471, 3921009573, 961987163,
   1508970993, 2453635748, 2870763221, 3624381080, 310598401,
   607225278, 1426881987, 1925078388, 2162078206, 2614888103,
   3248222580, 3835390401, 4022224774, 264347078, 604807628,
   770255983, 1249150122, 1555081692, 1996064986, 2554220882,
   2821834349, 2952996808, 3210313671, 3336571891, 3584528711,
   113926993, 338241895, 666307205, 773529912, 1294757372,
   1396182291, 1695183700, 1986661051, 2177026350, 2456956037,
   2730485921, 2820302411, 3259730800, 3345764771, 3516065817,
   3600352804, 4094571909, 275423344, 430227734, 506948616,
   659060556, 883997877, 958139571, 1322822218, 1537002063,
   1747873779, 1955562222, 2024104815, 2227730452, 2361852424,
   2428436474, 2756734187, 3204031479, 3329325298]

/-- The eight SHA-256 initial hash values. -/
def sha256Init : List Nat :=
  [1779033703, 3144134277, 1013904242,
   2773480762, 1359893119, 2600822924,
   528734635, 1541459225]

/-- Big-endian packing of bytes into 32-bit words. -/
def bytesToWords : List Nat → List Nat
  | b0 :: b1 :: b2 :: b3 :: rest =>
      (b0 * 16777216 + b1 * 65536 + b2 * 256 + b3) :: bytesToWords rest
  | _ => []

/-- Extend the 16 block words to the 64-entry message schedule. -/
def extendSchedule (w16 : List Nat) : List Nat :=
  (List.range 48).foldl
    (fun acc i =>
      acc ++ [w32 (smallSigma1 (acc.getD (i + 14) 0) + acc.getD (i + 9) 0
        + smallSigma0 (acc.getD (i + 1) 0) + acc.getD i 0)])
    w16

/-- One SHA-256 compression: fold the 64 rounds over the working variables
`(a,b,c,d,e,f,g,h)` and add the result into the incoming state. -/
def compressBlock (state : List Nat) (block : List Nat) : List Nat :=
  let ws := extendSchedule (bytesToWords block)
  let start := (state.getD 0 0, state.getD 1 0, state.getD 2 0,
    state.getD 3 0, state.getD 4 0, state.getD 5 0, state.getD 6 0,
    state.getD 7 0)
  let final := (List.range 64).foldl
    (fun st t =>
      let (a, b, c, d, e, ff, g, h) := st
      let t1 := w32 (h + bigSigma1 e + shaCh e ff g + shaK.getD t 0
        + ws.getD t 0)
      let t2 := w32 (bigSigma0 a + shaMaj a b c)
      (w32 (t1 + t2), a, b, c, w32 (d + t1), e, ff, g))
    start
  let (a, b, c, d, e, ff, g, h) := final
  [w32 (state.getD 0 0 + a), w32 (state.getD 1 0 + b),
   w32 (state.getD 2 0 + c), w32 (state.getD 3 0 + d),
   w32 (state.getD 4 0 + e), w32 (state.getD 5 0 + ff),
   w32 (state.getD 6 0 + g), w32 (state.getD 7 0 + h)]

/-- SHA-256 padding: append `0x80`, zero bytes to 56 mod 64, then the
64-bit big-endian bit length. -/
def sha256Pad (msg : List Nat) : List Nat :=
  let len := msg.length
  let zeros := (64 + 56 - (len + 1) % 64) % 64
  let bits := 8 * len
  msg ++ [128] ++ List.replicate zeros 0 ++
    [w8 (bits >>> 56), w8 (bits >>> 48), w8 (bits >>> 40), w8 (bits >>> 32),
     w8 (bits >>> 24), w8 (bits >>> 16), w8 (bits >>> 8), w8 bits]

/-- Split a byte list into 64-byte blocks; the first argument is
structural-recursion fuel (every step consumes at least one byte, so a
fuel of `l.length` is always enough). -/
def chunksOf64Fuel : Nat → List Nat → List (List Nat)
  | 0, _ => []
  | _, [] => []
  | fuel + 1, l => l.take 64 :: chunksOf64Fuel fuel (l.drop 64)

/-- Split a byte list into 64-byte blocks. -/
def chunksOf64 (l : List Nat) : List (List Nat) :=
  chunksOf64Fuel l.length l

/-- Big-endian unpacking of 32-bit words into bytes. -/
def wordsToBytes (ws : List Nat) : List Nat :=
  ws.foldr
    (fun w acc => w8 (w >>> 24) :: w8 (w >>> 16) :: w8 (w >>> 8) :: w8 w :: acc)
    []

/-- SHA-256 of a byte list (the Go `crypto/sha256` digest). -/
def sha256 (msg : List Nat) : List Nat :=
  wordsToBytes ((chunksOf64 (sha256Pad msg)).foldl compressBlock sha256Init)

/-- HMAC-SHA256 (Go `crypto/hmac` with `sha256.New`): keys longer than the
64-byte block are hashed first, then zero-padded; inner pad `0x36`, outer
pad `0x5c`. -/
def hmacSha256 (key msg : List Nat) : List Nat :=
  let key0 := if key.length > 64 then sha256 key else key
  let keyBlock := key0 ++ List.replicate (64 - key0.length) 0
  let innerKey := keyBlock.map (fun b => b ^^^ 54)
  let outerKey := keyBlock.map (fun b => b ^^^ 92)
  sha256 (outerKey ++ sha256 (innerKey ++ msg))

/-- One lowercase hex digit, as its ASCII byte. -/
def hexDigitByte (n : Nat) : Nat := if n < 10 then 48 + n else 87 + n

/-- `hex.EncodeToString`: two lowercase hex digits per byte, as the byte
string of the resulting Go string. -/
def hexEncode (bytes : List Nat) : List Nat :=
  bytes.foldr
    (fun b acc => hexDigitByte (b / 16) :: hexDigitByte (b % 16) :: acc)
    []

/-- Go `hmac.Equal` (`subtle.ConstantTimeCompare`): returns `true` exactly
when the two byte slices are equal (the constant-time execution profile is
not part of the functional model). -/
def hmacEqual (a b : List Nat) : Bool := a == b

/-- `verifyWebhookSignature` (README webhook integration): all four Go
arguments are byte strings; the signed data is
`"<timestamp>.<payload>"` (46 is `.`). -/
def verifyWebhookSignature (payload : List Nat)
    (timestamp signature secret : List Nat) : Bool :=
  let signatureData := timestamp ++ [46] ++ payload
  let expectedSignature := hexEncode (hmacSha256 secret signatureData)
  hmacEqual expectedSignature signature

/-! ## Sanity: the embedded primitives match the real algorithms -/

set_option maxRecDepth 400000

/-- Known-answer test, FIPS 180-4: the SHA-256 digest of the byte string
of the three characters a, b, c hex-encodes to
ba7816bf8f01cfea414140de5dae2223b00361a396177a9cb410ff61f20015ad. -/
theorem sha256_known_answer :
    hexEncode (sha256 [97, 98, 99]) =
      [98, 97, 55, 56, 49, 54, 98, 102, 56, 102, 48, 49, 99, 102, 101, 97,
       52, 49, 52, 49, 52, 48, 100, 101, 53, 100, 97, 101, 50, 50, 50, 51,
       98, 48, 48, 51, 54, 49, 97, 51, 57, 54, 49, 55, 55, 97, 57, 99,
       98, 52, 49, 48, 102, 102, 54, 49, 102, 50, 48, 48, 49, 53, 97, 100] := by
  decide

/-- Known-answer test, RFC 4231 test case 2: HMAC-SHA256 with key `Jefe`
over `what do ya want for nothing?` hex-encodes to
5bdcc146bf60754e6a042426089575c75a003f089d2739839dec58b964ec3843. -/
theorem hmacSha256_known_answer :
    hexEncode (hmacSha256 [74, 101, 102, 101]
      [119, 104, 97, 116, 32, 100, 111, 32, 121, 97, 32, 119, 97, 110, 116,
       32, 102, 111, 114, 32, 110, 111, 116, 104, 105, 110, 103, 63]) =
      [53, 98, 100, 99, 99, 49, 52, 54, 98, 102, 54, 48, 55, 53, 52, 101,
       54, 97, 48, 52, 50, 52, 50, 54, 48, 56, 57, 53, 55, 53, 99, 55,
       53, 97, 48, 48, 51, 102, 48, 56, 57, 100, 50, 55, 51, 57, 56, 51,
       57, 100, 101, 99, 53, 56, 98, 57, 54, 52, 101, 99, 51, 56, 52, 51] := by
  decide


/-! ### Round-trip toolkit: evaluating `lookupLast` over marshalled objects -/

/-- `lookupLast` with an arbitrary accumulator seed: the seed is returned
only when the list has no binding for the key. -/
theorem lookupLast_foldl_init (k : String) (l : List (String × Json))
    (init : Option Json) :
    List.foldl (fun acc kv => if kv.1 = k then some kv.2 else acc) init l =
      Option.or (lookupLast l k) init := by
  induction l generalizing init with
  | nil => simp [lookupLast]
  | cons kv t ih =>
      show List.foldl _ (if kv.1 = k then some kv.2 else init) t = _
      rw [ih]
      have ht : lookupLast (kv :: t) k =
          Option.or (lookupLast t k) (if kv.1 = k then some kv.2 else none) := by
        show List.foldl _ (if kv.1 = k then some kv.2 else none) t = _
        rw [ih]
      rw [ht]
      cases lookupLast t k with
      | some v => simp
      | none => by_cases hk : kv.1 = k <;> simp [hk]

/-- Last-binding-wins lookup distributes over append: the later part
shadows the earlier one. -/
theorem lookupLast_append (l1 l2 : List (String × Json)) (k : String) :
    lookupLast (l1 ++ l2) k = Option.or (lookupLast l2 k) (lookupLast l1 k) := by
  show List.foldl _ none (l1 ++ l2) = _
  rw [List.foldl_append]
  exact lookupLast_foldl_init k l2 (lookupLast l1 k)

/-- Looking up the key of an `optField` segment returns its value. -/
theorem lookupLast_optField_self (k : String) (o : Option Json) :
    lookupLast (optField k o) k = o := by
  cases o with
  | none => rfl
  | some j => simp [optField, lookupLast]

/-- Looking up any other key in an `optField` segment returns nothing. -/
theorem lookupLast_optField_ne (k' k : String) (o : Option Json)
    (h : ¬ k' = k) :
    lookupLast (optField k' o) k = none := by
  cases o with
  | none => rfl
  | some j => simp [optField, lookupLast, h]

/-- Looking up any other key in a `mapField` segment returns nothing. -/
theorem lookupLast_mapField_ne (k' k : String)
    (o : Option (List (String × Json))) (h : ¬ k' = k) :
    lookupLast (mapField k' o) k = none := by
  rcases o with _ | (_ | ⟨kv, rest⟩) <;> simp [mapField, lookupLast, h]

/-- Looking up the key of a `mapField` segment returns the marshalled map,
provided the map is not present-but-empty (which `omitempty` drops). -/
theorem lookupLast_mapField_self (k : String)
    {o : Option (List (String × Json))} (h : o ≠ some []) :
    lookupLast (mapField k o) k = Option.map Json.obj o := by
  rcases o with _ | (_ | ⟨kv, rest⟩)
  · rfl
  · exact absurd rfl h
  · simp [mapField, lookupLast]

/-- Reading back a marshalled plain string field. -/
theorem readString_str (s : String) :
    readString (some (Json.str s)) = some s := rfl

/-- Reading back a marshalled plain string field with `omitempty` (the
empty string is omitted and read back as the zero value `""`). -/
theorem readString_omitempty (s : String) :
    readString (if s = "" then none else some (Json.str s)) = some s := by
  by_cases hs : s = "" <;> simp [hs, readString]

/-- Reading back a marshalled plain int field. -/
theorem readInt_num (n : Int) : readInt (some (Json.num n)) = some n := rfl

/-- Reading back a marshalled plain float64 field. -/
theorem readFloat_fnum (f : GoFloat) :
    readFloat (some (Json.fnum f)) = some f := rfl

/-- Reading back a marshalled plain bool field. -/
theorem readBool_boolean (b : Bool) :
    readBool (some (Json.boolean b)) = some b := rfl

/-- Reading back a marshalled `*string` field. -/
theorem readStringPtr_map (o : Option String) :
    readStringPtr (Option.map Json.str o) = some o := by cases o <;> rfl

/-- Reading back a marshalled `*int` field. -/
theorem readIntPtr_map (o : Option Int) :
    readIntPtr (Option.map Json.num o) = some o := by cases o <;> rfl

/-- Reading back a marshalled `*float64` field. -/
theorem readFloatPtr_map (o : Option GoFloat) :
    readFloatPtr (Option.map Json.fnum o) = some o := by cases o <;> rfl

/-- Reading back a marshalled `*bool` field. -/
theorem readBoolPtr_map (o : Option Bool) :
    readBoolPtr (Option.map Json.boolean o) = some o := by cases o <;> rfl

/-- Reading back a marshalled metadata map field. -/
theorem readMetadata_map (o : Option (List (String × Json))) :
    readMetadata (Option.map Json.obj o) = some o := by cases o <;> rfl

/-- Reading back an elementwise-marshalled JSON array. -/
theorem unmarshalListWith_map (f : α → Json) (g : Json → Option α)
    (h : ∀ x, g (f x) = some x) (l : List α) :
    unmarshalListWith g (l.map f) = some l := by
  induction l with
  | nil => rfl
  | cons x xs ih => simp [unmarshalListWith, h, ih]

/-- Reading back a marshalled slice field. -/
theorem readItems_roundtrip (f : α → Json) (g : Json → Option α)
    (h : ∀ x, g (f x) = some x) (o : Option (List α)) :
    readItems g (some (itemsJson o f)) = some o := by
  cases o with
  | none => rfl
  | some l => simp [itemsJson, readItems, unmarshalListWith_map f g h l]

/-! ### Per-model round trips -/

/-- `Customer` round trip. -/
theorem roundtripCustomer (c : Customer) :
    unmarshalCustomer (marshalCustomer c) = some c := by
  simp [marshalCustomer, unmarshalCustomer, unmarshalStringField, lookupLast]

/-- `TransactionCustomer` round trip. -/
theorem roundtripTransactionCustomer (c : TransactionCustomer) :
    unmarshalTransactionCustomer (marshalTransactionCustomer c) = some c := by
  obtain ⟨i, e⟩ := c
  simp [marshalTransactionCustomer, unmarshalTransactionCustomer,
    lookupLast_append, lookupLast_optField_self, lookupLast_optField_ne,
    readStringPtr_map]

/-- `SubscriptionCustomer` round trip. -/
theorem roundtripSubscriptionCustomer (c : SubscriptionCustomer) :
    unmarshalSubscriptionCustomer (marshalSubscriptionCustomer c) = some c := by
  obtain ⟨i, e⟩ := c
  simp [marshalSubscriptionCustomer, unmarshalSubscriptionCustomer,
    lookupLast_append, lookupLast_optField_self, lookupLast_optField_ne,
    readStringPtr_map]

/-- Reading back a marshalled `*TransactionCustomer` field. -/
theorem readTransactionCustomerPtr_map (o : Option TransactionCustomer) :
    readTransactionCustomerPtr (Option.map marshalTransactionCustomer o) =
      some o := by
  cases o with
  | none => rfl
  | some c =>
      obtain ⟨i, e⟩ := c
      simp [readTransactionCustomerPtr, marshalTransactionCustomer,
        unmarshalTransactionCustomer, lookupLast_append,
        lookupLast_optField_self, lookupLast_optField_ne, readStringPtr_map]

/-- Reading back a marshalled `*SubscriptionCustomer` field. -/
theorem readSubscriptionCustomerPtr_map (o : Option SubscriptionCustomer) :
    readSubscriptionCustomerPtr (Option.map marshalSubscriptionCustomer o) =
      some o := by
  cases o with
  | none => rfl
  | some c =>
      obtain ⟨i, e⟩ := c
      simp [readSubscriptionCustomerPtr, marshalSubscriptionCustomer,
        unmarshalSubscriptionCustomer, lookupLast_append,
        lookupLast_optField_self, lookupLast_optField_ne, readStringPtr_map]

/-- `CheckoutRequest` round trip, for a metadata map that is not
present-but-empty. -/
theorem roundtripCheckoutRequest
    (r : CheckoutRequest) (h : r.metadata ≠ some []) :
    FromJSONCheckoutRequest (ToJSONCheckoutRequest r) = some r := by
  obtain ⟨pid, cust, rid, un, su, md⟩ := r
  simp only [ne_eq] at h
  cases cust <;> cases rid <;> cases un <;> cases su <;>
    (rcases md with _ | ⟨_ | ⟨kv, rest⟩⟩) <;>
    first
      | (exfalso; exact h rfl)
      | simp [FromJSONCheckoutRequest, ToJSONCheckoutRequest,
          marshalCheckoutRequest, unmarshalCheckoutRequest, marshalCustomer,
          unmarshalCustomer, unmarshalStringField, unmarshalStringPtrField,
          unmarshalCustomerPtrField, unmarshalMetadataField, lookupLast]

/-- `CheckoutResponse` round trip. -/
theorem roundtripCheckoutResponse (r : CheckoutResponse) (h : r.metadata ≠ some []) :
    unmarshalCheckoutResponse (marshalCheckoutResponse r) = some r := by
  obtain ⟨object, units, metadata, status, mode, paymentID, productID, requestID, successURL, checkoutURL, createdAt, updatedAt, expiresOn⟩ := r
  simp only [ne_eq] at h
  simp [marshalCheckoutResponse, unmarshalCheckoutResponse, lookupLast_append, lookupLast_optField_self,
    lookupLast_optField_ne, readStringPtr_map, readIntPtr_map,
    readFloatPtr_map, readBoolPtr_map, readString_str, readInt_num,
    readFloat_fnum, readBool_boolean, lookupLast_mapField_ne, readMetadata_map,
    lookupLast_mapField_self "metadata" h]

/-- `CreateProductRequest` round trip. -/
theorem roundtripCreateProductRequest (r : CreateProductRequest) :
    unmarshalCreateProductRequest (marshalCreateProductRequest r) = some r := by
  obtain ⟨name, description, price, currency, billingType, taxInclusive, taxCategory, recurringInterval, trialDays⟩ := r
  simp [marshalCreateProductRequest, unmarshalCreateProductRequest, lookupLast_append, lookupLast_optField_self,
    lookupLast_optField_ne, readStringPtr_map, readIntPtr_map,
    readFloatPtr_map, readBoolPtr_map, readString_str, readInt_num,
    readFloat_fnum, readBool_boolean]

/-- `Product` round trip. -/
theorem roundtripProduct (r : Product) :
    unmarshalProduct (marshalProduct r) = some r := by
  obtain ⟨name, description, price, currency, object, mode, productID, storeID, productURL, billingType, billingPeriod, taxCategory, taxInclusive, isArchive, createdAt, updatedAt, trialDays, recurringInterval⟩ := r
  simp [marshalProduct, unmarshalProduct, lookupLast_append, lookupLast_optField_self,
    lookupLast_optField_ne, readStringPtr_map, readIntPtr_map,
    readFloatPtr_map, readBoolPtr_map, readString_str, readInt_num,
    readFloat_fnum, readBool_boolean]

/-- `UpdateProductRequest` round trip. -/
theorem roundtripUpdateProductRequest (r : UpdateProductRequest) :
    unmarshalUpdateProductRequest (marshalUpdateProductRequest r) = some r := by
  obtain ⟨productID, name, description, price, currency, billingType, taxInclusive, taxCategory, recurringInterval, trialDays⟩ := r
  simp [marshalUpdateProductRequest, unmarshalUpdateProductRequest, lookupLast_append, lookupLast_optField_self,
    lookupLast_optField_ne, readStringPtr_map, readIntPtr_map,
    readFloatPtr_map, readBoolPtr_map, readString_str, readInt_num,
    readFloat_fnum, readBool_boolean]

/-- `Transaction` round trip. -/
theorem roundtripTransaction (r : Transaction) :
    unmarshalTransaction (marshalTransaction r) = some r := by
  obtain ⟨object, orderID, transactionID, amount, amountPaid, discountAmount, currency, taxAmount, taxCountry, refundedAmount, type, customer, createdAt, updatedAt, remark, mode, fees, tax, net⟩ := r
  simp [marshalTransaction, unmarshalTransaction, lookupLast_append, lookupLast_optField_self,
    lookupLast_optField_ne, readStringPtr_map, readIntPtr_map,
    readFloatPtr_map, readBoolPtr_map, readString_str, readInt_num,
    readFloat_fnum, readBool_boolean, readTransactionCustomerPtr_map]

/-- `Subscription` round trip. -/
theorem roundtripSubscription (r : Subscription) :
    unmarshalSubscription (marshalSubscription r) = some r := by
  obtain ⟨object, status, remark, customer, mode, amount, last4, subscriptionID, productID, storeID, billingPeriodStart, billingPeriodEnd, cancelAt, trialStart, trialEnd, units, createdAt, updatedAt, productName, paymentMethod, nextBillingAmount, recurringInterval⟩ := r
  simp [marshalSubscription, unmarshalSubscription, lookupLast_append, lookupLast_optField_self,
    lookupLast_optField_ne, readStringPtr_map, readIntPtr_map,
    readFloatPtr_map, readBoolPtr_map, readString_str, readInt_num,
    readFloat_fnum, readBool_boolean, readSubscriptionCustomerPtr_map]

/-- `CustomerData` round trip. -/
theorem roundtripCustomerData (r : CustomerData) :
    unmarshalCustomerData (marshalCustomerData r) = some r := by
  obtain ⟨id, name, email, remark, subscriptions, payments, storeID, totalSpend, createdAt, updatedAt⟩ := r
  simp [marshalCustomerData, unmarshalCustomerData, lookupLast_append, lookupLast_optField_self,
    lookupLast_optField_ne, readStringPtr_map, readIntPtr_map,
    readFloatPtr_map, readBoolPtr_map, readString_str, readInt_num,
    readFloat_fnum, readBool_boolean]

/-- `ProductListResponse` round trip. -/
theorem roundtripProductListResponse (r : ProductListResponse) :
    unmarshalProductListResponse (marshalProductListResponse r) = some r := by
  obtain ⟨total, items, code, msg⟩ := r
  simp [marshalProductListResponse, unmarshalProductListResponse, lookupLast_append, lookupLast_optField_self,
    lookupLast_optField_ne, readStringPtr_map, readIntPtr_map,
    readFloatPtr_map, readBoolPtr_map, readString_str, readInt_num,
    readFloat_fnum, readBool_boolean, readItems_roundtrip marshalProduct unmarshalProduct roundtripProduct]

/-- `TransactionListResponse` round trip. -/
theorem roundtripTransactionListResponse (r : TransactionListResponse) :
    unmarshalTransactionListResponse (marshalTransactionListResponse r) = some r := by
  obtain ⟨total, items, code, msg⟩ := r
  simp [marshalTransactionListResponse, unmarshalTransactionListResponse, lookupLast_append, lookupLast_optField_self,
    lookupLast_optField_ne, readStringPtr_map, readIntPtr_map,
    readFloatPtr_map, readBoolPtr_map, readString_str, readInt_num,
    readFloat_fnum, readBool_boolean, readItems_roundtrip marshalTransaction unmarshalTransaction roundtripTransaction]

/-- `SubscriptionListResponse` round trip. -/
theorem roundtripSubscriptionListResponse (r : SubscriptionListResponse) :
    unmarshalSubscriptionListResponse (marshalSubscriptionListResponse r) = some r := by
  obtain ⟨total, items, code, msg⟩ := r
  simp [marshalSubscriptionListResponse, unmarshalSubscriptionListResponse, lookupLast_append, lookupLast_optField_self,
    lookupLast_optField_ne, readStringPtr_map, readIntPtr_map,
    readFloatPtr_map, readBoolPtr_map, readString_str, readInt_num,
    readFloat_fnum, readBool_boolean, readItems_roundtrip marshalSubscription unmarshalSubscription roundtripSubscription]

/-- `CustomerListResponse` round trip. -/
theorem roundtripCustomerListResponse (r : CustomerListResponse) :
    unmarshalCustomerListResponse (marshalCustomerListResponse r) = some r := by
  obtain ⟨total, items, code, msg⟩ := r
  simp [marshalCustomerListResponse, unmarshalCustomerListResponse, lookupLast_append, lookupLast_optField_self,
    lookupLast_optField_ne, readStringPtr_map, readIntPtr_map,
    readFloatPtr_map, readBoolPtr_map, readString_str, readInt_num,
    readFloat_fnum, readBool_boolean, readItems_roundtrip marshalCustomerData unmarshalCustomerData roundtripCustomerData]

/-- `APIErrorPayload` round trip. -/
theorem roundtripAPIErrorPayload (r : APIErrorPayload) :
    unmarshalAPIErrorPayload (marshalAPIErrorPayload r) = some r := by
  obtain ⟨code, message, details⟩ := r
  simp [marshalAPIErrorPayload, unmarshalAPIErrorPayload, lookupLast_append, lookupLast_optField_self,
    lookupLast_optField_ne, readStringPtr_map, readIntPtr_map,
    readFloatPtr_map, readBoolPtr_map, readString_str, readInt_num,
    readFloat_fnum, readBool_boolean, readString_omitempty]

/-! ## Claims -/

/-- Claim C1: for every HTTP response with status code at least 400,
`handleResponse` returns an error whose kind is determined exactly by the
status code — 401 Authentication, 400 Validation, 404 NotFound,
429 RateLimit, every status at least 500 Server, and any other status at
least 400 the generic API error; 404 never yields the generic kind. -/
theorem c1_status_error_kind_mapping
    (statusCode : Int) (parsed : Option APIErrorPayload) (body : String)
    (h : 400 ≤ statusCode) :
    (handleResponse statusCode parsed body).map kindOf =
      some (if statusCode = 401 then ErrKind.auth
        else if statusCode = 400 then ErrKind.validation
        else if statusCode = 404 then ErrKind.notFound
        else if statusCode = 429 then ErrKind.rateLimit
        else if 500 ≤ statusCode then ErrKind.server
        else ErrKind.api)
    ∧ (statusCode = 404 →
        (handleResponse statusCode parsed body).map kindOf ≠ some ErrKind.api) := by
  unfold handleResponse
  rw [if_pos h]
  constructor
  · split_ifs <;> rfl
  · intro h404
    subst h404
    split_ifs <;> simp_all [kindOf, NewBagelPayNotFoundErrorSimple,
      NewBagelPayNotFoundError]

/-- Witness for C1 at the concrete status 404. -/
theorem c1_witness :
    (handleResponse 404 none "gone").map kindOf =
      some (if (404 : Int) = 401 then ErrKind.auth
        else if (404 : Int) = 400 then ErrKind.validation
        else if (404 : Int) = 404 then ErrKind.notFound
        else if (404 : Int) = 429 then ErrKind.rateLimit
        else if 500 ≤ (404 : Int) then ErrKind.server
        else ErrKind.api)
    ∧ ((404 : Int) = 404 →
        (handleResponse 404 none "gone").map kindOf ≠ some ErrKind.api) :=
  c1_status_error_kind_mapping 404 none "gone" (by decide)

/-- Claim C2: `verifyWebhookSignature` returns `true` exactly when the
provided signature equals the hex encoding of the HMAC-SHA256 keyed by the
secret over the byte sequence `<timestamp>.<payload>`; in particular
recomputing the signature over the same secret, timestamp and body
verifies, and (by the same equivalence) any signature differing in at
least one byte from the correct one is rejected. -/
theorem c2_verify_webhook_signature_iff
    (payload timestamp signature secret : List Nat) :
    (verifyWebhookSignature payload timestamp signature secret = true ↔
      signature = hexEncode (hmacSha256 secret (timestamp ++ [46] ++ payload)))
    ∧ verifyWebhookSignature payload timestamp
        (hexEncode (hmacSha256 secret (timestamp ++ [46] ++ payload)))
        secret = true := by
  unfold verifyWebhookSignature hmacEqual
  refine ⟨⟨fun hh => ?_, fun hh => ?_⟩, ?_⟩
  · exact (beq_iff_eq.mp hh).symm
  · exact beq_iff_eq.mpr hh.symm
  · exact beq_iff_eq.mpr rfl

/-- Claim C3: for every response with status at least 400 whose body does
not parse as the structured error payload, the synthesized fallback
payload has message exactly `HTTP <status>: <raw body>` and code equal to
the HTTP status, the returned error carries that message, and a 500
response with an unparsable body yields a Server error with exactly that
message. -/
theorem c3_fallback_error_payload
    (statusCode : Int) (body : String) (h : 400 ≤ statusCode) :
    (fallbackPayload statusCode body).message =
        "HTTP " ++ toString statusCode ++ ": " ++ body
    ∧ (fallbackPayload statusCode body).code = statusCode
    ∧ (handleResponse statusCode none body).map errMessage =
        some ("HTTP " ++ toString statusCode ++ ": " ++ body)
    ∧ (500 ≤ statusCode →
        (handleResponse statusCode none body).map kindOf = some ErrKind.server
        ∧ (handleResponse statusCode none body).map errMessage =
            some ("HTTP " ++ toString statusCode ++ ": " ++ body)) := by
  refine ⟨rfl, rfl, ?_, ?_⟩
  · unfold handleResponse
    rw [if_pos h]
    split_ifs <;> rfl
  · intro h500
    constructor
    · unfold handleResponse
      rw [if_pos h]
      split_ifs <;> first | omega | rfl
    · unfold handleResponse
      rw [if_pos h]
      split_ifs <;> rfl

/-- Witness for C3 at the concrete status 500 with raw body `oops`. -/
theorem c3_witness :
    (fallbackPayload 500 "oops").message =
        "HTTP " ++ toString (500 : Int) ++ ": " ++ "oops"
    ∧ (fallbackPayload 500 "oops").code = 500
    ∧ (handleResponse 500 none "oops").map errMessage =
        some ("HTTP " ++ toString (500 : Int) ++ ": " ++ "oops")
    ∧ (500 ≤ (500 : Int) →
        (handleResponse 500 none "oops").map kindOf = some ErrKind.server
        ∧ (handleResponse 500 none "oops").map errMessage =
            some ("HTTP " ++ toString (500 : Int) ++ ": " ++ "oops")) :=
  c3_fallback_error_payload 500 "oops" (by decide)

/-- Claim C4: a query parameter whose value is the empty string is omitted
entirely from the query `makeRequest` constructs (for a key all of whose
bindings are empty, the key does not appear at all), and the four list
operations omit `pageSize` and `pageNum` whenever the corresponding
argument is not positive. -/
theorem c4_empty_query_params_omitted
    (ps : List (String × String)) (k : String) (pageNum pageSize : Int)
    (hk : ∀ v, (k, v) ∈ ps → v = "") :
    k ∉ (addQueryParams [] (some ps)).map Prod.fst
    ∧ (pageSize ≤ 0 →
        ("pageSize" ∉ (listProductsParams pageNum pageSize).map Prod.fst
         ∧ "pageSize" ∉ (listTransactionsParams pageNum pageSize).map Prod.fst
         ∧ "pageSize" ∉ (listSubscriptionsParams pageNum pageSize).map Prod.fst
         ∧ "pageSize" ∉ (listCustomersParams pageNum pageSize).map Prod.fst))
    ∧ (pageNum ≤ 0 →
        ("pageNum" ∉ (listProductsParams pageNum pageSize).map Prod.fst
         ∧ "pageNum" ∉ (listTransactionsParams pageNum pageSize).map Prod.fst
         ∧ "pageNum" ∉ (listSubscriptionsParams pageNum pageSize).map Prod.fst
         ∧ "pageNum" ∉ (listCustomersParams pageNum pageSize).map Prod.fst)) := by
  refine ⟨?_, ?_, ?_⟩
  · intro hmem
    simp only [addQueryParams, List.nil_append, List.mem_map,
      List.mem_filter] at hmem
    obtain ⟨⟨k', v⟩, ⟨hin, hv⟩, hfst⟩ := hmem
    subst hfst
    exact (of_decide_eq_true hv) (hk v hin)
  · intro hsz
    have hif : ¬ pageSize > 0 := by omega
    refine ⟨?_, ?_, ?_, ?_⟩ <;>
      simp [listProductsParams, listTransactionsParams,
        listSubscriptionsParams, listCustomersParams, listPageParams,
        if_neg hif]
  · intro hpn
    have hif : ¬ pageNum > 0 := by omega
    refine ⟨?_, ?_, ?_, ?_⟩ <;>
      simp [listProductsParams, listTransactionsParams,
        listSubscriptionsParams, listCustomersParams, listPageParams,
        if_neg hif]

/-- Witness for C4: one empty-valued parameter and page arguments 0. -/
theorem c4_witness :
    "q" ∉ (addQueryParams [] (some [("q", "")])).map Prod.fst
    ∧ ((0 : Int) ≤ 0 →
        ("pageSize" ∉ (listProductsParams 0 0).map Prod.fst
         ∧ "pageSize" ∉ (listTransactionsParams 0 0).map Prod.fst
         ∧ "pageSize" ∉ (listSubscriptionsParams 0 0).map Prod.fst
         ∧ "pageSize" ∉ (listCustomersParams 0 0).map Prod.fst))
    ∧ ((0 : Int) ≤ 0 →
        ("pageNum" ∉ (listProductsParams 0 0).map Prod.fst
         ∧ "pageNum" ∉ (listTransactionsParams 0 0).map Prod.fst
         ∧ "pageNum" ∉ (listSubscriptionsParams 0 0).map Prod.fst
         ∧ "pageNum" ∉ (listCustomersParams 0 0).map Prod.fst)) :=
  c4_empty_query_params_omitted [("q", "")] "q" 0 0
    (by intro v hv; simp only [List.mem_singleton, Prod.mk.injEq] at hv; exact hv.2)

/-- Claim C5: each specialized type-test predicate is true exactly for
errors of its own dynamic type; but `IsAPIError`, contrary to the claim, is
true only for the generic API error type and **false** for the five
specializations — shown concretely on the authentication error produced by
a 401 response, which the Go type assertion to the generic type rejects. -/
theorem c5_predicate_dispatch :
    (∀ e : BagelPayErr,
      (IsAuthenticationError e = true ↔ kindOf e = ErrKind.auth)
      ∧ (IsValidationError e = true ↔ kindOf e = ErrKind.validation)
      ∧ (IsNotFoundError e = true ↔ kindOf e = ErrKind.notFound)
      ∧ (IsRateLimitError e = true ↔ kindOf e = ErrKind.rateLimit)
      ∧ (IsServerError e = true ↔ kindOf e = ErrKind.server)
      ∧ (IsAPIError e = true ↔ kindOf e = ErrKind.api))
    ∧ (handleResponse 401 none "denied").map IsAuthenticationError = some true
    ∧ (handleResponse 401 none "denied").map IsAPIError = some false := by
  refine ⟨?_, rfl, rfl⟩
  intro e
  cases e <;>
    simp [IsAuthenticationError, IsValidationError, IsNotFoundError,
      IsRateLimitError, IsServerError, IsAPIError, kindOf]

/-- Claim C6, amended: every classified API error carries the HTTP status
code and the parsed payload message, but only the **generic** API error
(other 4xx statuses) carries the stringified non-zero payload code and the
original payload; the five specialized kinds produced by `handleResponse`
carry an empty error code and no payload. -/
theorem c6_error_fields_amended
    (statusCode : Int) (a : APIErrorPayload) (body : String)
    (h : 400 ≤ statusCode) :
    (statusCode = 401 → handleResponse statusCode (some a) body =
      some (BagelPayErr.auth ⟨a.message, 401, "", none⟩))
    ∧ (statusCode = 400 → handleResponse statusCode (some a) body =
      some (BagelPayErr.validation ⟨a.message, 400, "", none⟩))
    ∧ (statusCode = 404 → handleResponse statusCode (some a) body =
      some (BagelPayErr.notFound ⟨a.message, 404, "", none⟩))
    ∧ (statusCode = 429 → handleResponse statusCode (some a) body =
      some (BagelPayErr.rateLimit ⟨a.message, 429, "", none⟩))
    ∧ (500 ≤ statusCode → handleResponse statusCode (some a) body =
      some (BagelPayErr.server ⟨a.message, statusCode, "", none⟩))
    ∧ (statusCode ≠ 401 → statusCode ≠ 400 → statusCode ≠ 404 →
       statusCode ≠ 429 → statusCode < 500 →
        handleResponse statusCode (some a) body =
          some (BagelPayErr.api ⟨a.message, statusCode,
            (if a.code ≠ 0 then toString a.code else ""), some a⟩)) := by
  refine ⟨?_, ?_, ?_, ?_, ?_, ?_⟩
  · intro hs; subst hs; rfl
  · intro hs; subst hs; rfl
  · intro hs; subst hs; rfl
  · intro hs; subst hs; rfl
  · intro h500
    unfold handleResponse
    rw [if_pos h]
    split_ifs <;> first
      | omega
      | (simp [NewBagelPayServerErrorSimple, NewBagelPayServerError]; omega)
  · intro h1 h2 h3 h4 h5
    unfold handleResponse
    rw [if_pos h]
    simp only [NewBagelPayAPIError]
    split_ifs <;> first
      | omega
      | rfl

/-- Counterexample for C6 as stated: a 401 response whose body parsed as a
structured payload with the non-zero code 402 yields an authentication
error whose error code is the empty string (not the stringified payload
code) and which carries no payload at all. -/
theorem c6_counterexample :
    handleResponse 401 (some ⟨402, "Invalid API key", ""⟩) "raw" =
      some (BagelPayErr.auth ⟨"Invalid API key", 401, "", none⟩)
    ∧ ("" : String) ≠ toString (402 : Int)
    ∧ (none : Option APIErrorPayload) ≠ some ⟨402, "Invalid API key", ""⟩ := by
  refine ⟨rfl, by decide, by decide⟩

/-- Witness for the amended C6 at the concrete status 401. -/
theorem c6_witness :
    ((401 : Int) = 401 →
      handleResponse 401 (some ⟨402, "Invalid API key", ""⟩) "raw" =
        some (BagelPayErr.auth
          ⟨(⟨402, "Invalid API key", ""⟩ : APIErrorPayload).message, 401, "",
           none⟩))
    ∧ ((401 : Int) = 400 →
      handleResponse 401 (some ⟨402, "Invalid API key", ""⟩) "raw" =
        some (BagelPayErr.validation
          ⟨(⟨402, "Invalid API key", ""⟩ : APIErrorPayload).message, 400, "",
           none⟩))
    ∧ ((401 : Int) = 404 →
      handleResponse 401 (some ⟨402, "Invalid API key", ""⟩) "raw" =
        some (BagelPayErr.notFound
          ⟨(⟨402, "Invalid API key", ""⟩ : APIErrorPayload).message, 404, "",
           none⟩))
    ∧ ((401 : Int) = 429 →
      handleResponse 401 (some ⟨402, "Invalid API key", ""⟩) "raw" =
        some (BagelPayErr.rateLimit
          ⟨(⟨402, "Invalid API key", ""⟩ : APIErrorPayload).message, 429, "",
           none⟩))
    ∧ (500 ≤ (401 : Int) →
      handleResponse 401 (some ⟨402, "Invalid API key", ""⟩) "raw" =
        some (BagelPayErr.server
          ⟨(⟨402, "Invalid API key", ""⟩ : APIErrorPayload).message, 401, "",
           none⟩))
    ∧ ((401 : Int) ≠ 401 → (401 : Int) ≠ 400 → (401 : Int) ≠ 404 →
       (401 : Int) ≠ 429 → (401 : Int) < 500 →
        handleResponse 401 (some ⟨402, "Invalid API key", ""⟩) "raw" =
          some (BagelPayErr.api
            ⟨(⟨402, "Invalid API key", ""⟩ : APIErrorPayload).message, 401,
             (if (⟨402, "Invalid API key", ""⟩ : APIErrorPayload).code ≠ 0
              then toString (⟨402, "Invalid API key", ""⟩ : APIErrorPayload).code
              else ""),
             some ⟨402, "Invalid API key", ""⟩⟩)) :=
  c6_error_fields_amended 401 ⟨402, "Invalid API key", ""⟩ "raw" (by decide)

/-- Claim C7, amended: for every value of each concrete wire model
(Customer, TransactionCustomer, SubscriptionCustomer, CheckoutRequest,
CheckoutResponse, CreateProductRequest, UpdateProductRequest, Product,
Transaction, Subscription, CustomerData, the four list responses, and the
structured APIError payload), serializing with ToJSON and parsing back
with FromJSON yields a value equal to the original in every field that
was present, and every optional field that was absent stays absent —
provided the metadata map (the only `omitempty` map field, on
CheckoutRequest and CheckoutResponse) is not present-but-empty, which
`omitempty` drops. -/
theorem c7_roundtrip_amended
    (c : Customer)
    (tc : TransactionCustomer)
    (sc : SubscriptionCustomer)
    (cr : CheckoutRequest)
    (co : CheckoutResponse)
    (cp : CreateProductRequest)
    (up : UpdateProductRequest)
    (p : Product)
    (t : Transaction)
    (s : Subscription)
    (cd : CustomerData)
    (pl : ProductListResponse)
    (tl : TransactionListResponse)
    (sl : SubscriptionListResponse)
    (cl : CustomerListResponse)
    (ae : APIErrorPayload)
    (hcr : cr.metadata ≠ some []) (hco : co.metadata ≠ some []) :
    unmarshalCustomer (marshalCustomer c) = some c
    ∧ unmarshalTransactionCustomer (marshalTransactionCustomer tc) = some tc
    ∧ unmarshalSubscriptionCustomer (marshalSubscriptionCustomer sc) = some sc
    ∧ FromJSONCheckoutRequest (ToJSONCheckoutRequest cr) = some cr
    ∧ unmarshalCheckoutResponse (marshalCheckoutResponse co) = some co
    ∧ unmarshalCreateProductRequest (marshalCreateProductRequest cp) = some cp
    ∧ unmarshalUpdateProductRequest (marshalUpdateProductRequest up) = some up
    ∧ unmarshalProduct (marshalProduct p) = some p
    ∧ unmarshalTransaction (marshalTransaction t) = some t
    ∧ unmarshalSubscription (marshalSubscription s) = some s
    ∧ unmarshalCustomerData (marshalCustomerData cd) = some cd
    ∧ unmarshalProductListResponse (marshalProductListResponse pl) = some pl
    ∧ unmarshalTransactionListResponse (marshalTransactionListResponse tl) = some tl
    ∧ unmarshalSubscriptionListResponse (marshalSubscriptionListResponse sl) = some sl
    ∧ unmarshalCustomerListResponse (marshalCustomerListResponse cl) = some cl
    ∧ unmarshalAPIErrorPayload (marshalAPIErrorPayload ae) = some ae :=
  ⟨roundtripCustomer c,
   roundtripTransactionCustomer tc,
   roundtripSubscriptionCustomer sc,
   roundtripCheckoutRequest cr hcr,
   roundtripCheckoutResponse co hco,
   roundtripCreateProductRequest cp,
   roundtripUpdateProductRequest up,
   roundtripProduct p,
   roundtripTransaction t,
   roundtripSubscription s,
   roundtripCustomerData cd,
   roundtripProductListResponse pl,
   roundtripTransactionListResponse tl,
   roundtripSubscriptionListResponse sl,
   roundtripCustomerListResponse cl,
   roundtripAPIErrorPayload ae⟩

/-- Counterexample for C7 as stated: a `CheckoutRequest` whose metadata map
is present but empty serializes without the `metadata` key, and the
round-trip returns it with the metadata absent — not equal to the
original. -/
theorem c7_counterexample :
    ToJSONCheckoutRequest ⟨"p", none, none, none, none, some []⟩ =
      Json.obj [("product_id", Json.str "p")]
    ∧ FromJSONCheckoutRequest
        (ToJSONCheckoutRequest ⟨"p", none, none, none, none, some []⟩) =
      some ⟨"p", none, none, none, none, none⟩
    ∧ some (⟨"p", none, none, none, none, none⟩ : CheckoutRequest) ≠
      some (⟨"p", none, none, none, none, some []⟩ : CheckoutRequest) := by
  refine ⟨rfl, rfl, ?_⟩
  simp [CheckoutRequest.mk.injEq]

/-- Witness for the amended C7: one concrete value per wire model,
mixing present and absent optional fields, a non-empty metadata map,
nil, empty and non-empty item slices, and an omitted-details payload. -/
theorem c7_witness :
    unmarshalCustomer (marshalCustomer (⟨"a@b.io"⟩ : Customer)) =
      some (⟨"a@b.io"⟩ : Customer)
    ∧ unmarshalTransactionCustomer (marshalTransactionCustomer (⟨some "tc1", none⟩ : TransactionCustomer)) =
      some (⟨some "tc1", none⟩ : TransactionCustomer)
    ∧ unmarshalSubscriptionCustomer (marshalSubscriptionCustomer (⟨none, some "s@b.io"⟩ : SubscriptionCustomer)) =
      some (⟨none, some "s@b.io"⟩ : SubscriptionCustomer)
    ∧ FromJSONCheckoutRequest (ToJSONCheckoutRequest (⟨"prod_1", some ⟨"a@b.io"⟩, some "req", none, none, some [("order_id", Json.str "o1")]⟩ : CheckoutRequest)) =
      some (⟨"prod_1", some ⟨"a@b.io"⟩, some "req", none, none, some [("order_id", Json.str "o1")]⟩ : CheckoutRequest)
    ∧ unmarshalCheckoutResponse (marshalCheckoutResponse (⟨some "checkout", some 2, none, some "pending", none, some "pay_1", some "prod_1", none, none, some "https://pay.io/c", none, none, none⟩ : CheckoutResponse)) =
      some (⟨some "checkout", some 2, none, some "pending", none, some "pay_1", some "prod_1", none, none, some "https://pay.io/c", none, none, none⟩ : CheckoutResponse)
    ∧ unmarshalCreateProductRequest (marshalCreateProductRequest (⟨"Premium", "Monthly plan", ⟨"29.99"⟩, "USD", "subscription", false, "digital_products", "monthly", 7⟩ : CreateProductRequest)) =
      some (⟨"Premium", "Monthly plan", ⟨"29.99"⟩, "USD", "subscription", false, "digital_products", "monthly", 7⟩ : CreateProductRequest)
    ∧ unmarshalUpdateProductRequest (marshalUpdateProductRequest (⟨"prod_1", "Premium", "Updated plan", ⟨"39.99"⟩, "USD", "subscription", true, "digital_services", "monthly", 14⟩ : UpdateProductRequest)) =
      some (⟨"prod_1", "Premium", "Updated plan", ⟨"39.99"⟩, "USD", "subscription", true, "digital_services", "monthly", 14⟩ : UpdateProductRequest)
    ∧ unmarshalProduct (marshalProduct (⟨some "Premium", none, some ⟨"29.99"⟩, some "USD", none, none, some "prod_1", none, none, some "subscription", none, none, some false, some false, none, none, some 7, some "monthly"⟩ : Product)) =
      some (⟨some "Premium", none, some ⟨"29.99"⟩, some "USD", none, none, some "prod_1", none, none, some "subscription", none, none, some false, some false, none, none, some 7, some "monthly"⟩ : Product)
    ∧ unmarshalTransaction (marshalTransaction (⟨none, some "ord_1", some "tx_1", some ⟨"10.5"⟩, none, none, some "USD", none, none, none, some "payment", some ⟨some "tc1", none⟩, none, none, none, none, none, none, none⟩ : Transaction)) =
      some (⟨none, some "ord_1", some "tx_1", some ⟨"10.5"⟩, none, none, some "USD", none, none, none, some "payment", some ⟨some "tc1", none⟩, none, none, none, none, none, none, none⟩ : Transaction)
    ∧ unmarshalSubscription (marshalSubscription (⟨none, some "active", none, some ⟨none, some "s@b.io"⟩, none, some ⟨"9.99"⟩, none, some "sub_1", none, none, none, none, none, none, none, some 1, none, none, none, none, none, some "monthly"⟩ : Subscription)) =
      some (⟨none, some "active", none, some ⟨none, some "s@b.io"⟩, none, some ⟨"9.99"⟩, none, some "sub_1", none, none, none, none, none, none, none, some 1, none, none, none, none, none, some "monthly"⟩ : Subscription)
    ∧ unmarshalCustomerData (marshalCustomerData (⟨some 7, some "Ada", none, none, some 2, some 3, none, some ⟨"123.45"⟩, none, none⟩ : CustomerData)) =
      some (⟨some 7, some "Ada", none, none, some 2, some 3, none, some ⟨"123.45"⟩, none, none⟩ : CustomerData)
    ∧ unmarshalProductListResponse (marshalProductListResponse (⟨1, some [⟨none, none, none, none, none, none, none, none, none, none, none, none, none, none, none, none, none, none⟩], 200, "ok"⟩ : ProductListResponse)) =
      some (⟨1, some [⟨none, none, none, none, none, none, none, none, none, none, none, none, none, none, none, none, none, none⟩], 200, "ok"⟩ : ProductListResponse)
    ∧ unmarshalTransactionListResponse (marshalTransactionListResponse (⟨0, some [], 200, "ok"⟩ : TransactionListResponse)) =
      some (⟨0, some [], 200, "ok"⟩ : TransactionListResponse)
    ∧ unmarshalSubscriptionListResponse (marshalSubscriptionListResponse (⟨0, none, 200, "ok"⟩ : SubscriptionListResponse)) =
      some (⟨0, none, 200, "ok"⟩ : SubscriptionListResponse)
    ∧ unmarshalCustomerListResponse (marshalCustomerListResponse (⟨0, none, 500, "error"⟩ : CustomerListResponse)) =
      some (⟨0, none, 500, "error"⟩ : CustomerListResponse)
    ∧ unmarshalAPIErrorPayload (marshalAPIErrorPayload (⟨400, "bad request", "field missing"⟩ : APIErrorPayload)) =
      some (⟨400, "bad request", "field missing"⟩ : APIErrorPayload) :=
  c7_roundtrip_amended
    (⟨"a@b.io"⟩ : Customer)
    (⟨some "tc1", none⟩ : TransactionCustomer)
    (⟨none, some "s@b.io"⟩ : SubscriptionCustomer)
    (⟨"prod_1", some ⟨"a@b.io"⟩, some "req", none, none, some [("order_id", Json.str "o1")]⟩ : CheckoutRequest)
    (⟨some "checkout", some 2, none, some "pending", none, some "pay_1", some "prod_1", none, none, some "https://pay.io/c", none, none, none⟩ : CheckoutResponse)
    (⟨"Premium", "Monthly plan", ⟨"29.99"⟩, "USD", "subscription", false, "digital_products", "monthly", 7⟩ : CreateProductRequest)
    (⟨"prod_1", "Premium", "Updated plan", ⟨"39.99"⟩, "USD", "subscription", true, "digital_services", "monthly", 14⟩ : UpdateProductRequest)
    (⟨some "Premium", none, some ⟨"29.99"⟩, some "USD", none, none, some "prod_1", none, none, some "subscription", none, none, some false, some false, none, none, some 7, some "monthly"⟩ : Product)
    (⟨none, some "ord_1", some "tx_1", some ⟨"10.5"⟩, none, none, some "USD", none, none, none, some "payment", some ⟨some "tc1", none⟩, none, none, none, none, none, none, none⟩ : Transaction)
    (⟨none, some "active", none, some ⟨none, some "s@b.io"⟩, none, some ⟨"9.99"⟩, none, some "sub_1", none, none, none, none, none, none, none, some 1, none, none, none, none, none, some "monthly"⟩ : Subscription)
    (⟨some 7, some "Ada", none, none, some 2, some 3, none, some ⟨"123.45"⟩, none, none⟩ : CustomerData)
    (⟨1, some [⟨none, none, none, none, none, none, none, none, none, none, none, none, none, none, none, none, none, none⟩], 200, "ok"⟩ : ProductListResponse)
    (⟨0, some [], 200, "ok"⟩ : TransactionListResponse)
    (⟨0, none, 200, "ok"⟩ : SubscriptionListResponse)
    (⟨0, none, 500, "error"⟩ : CustomerListResponse)
    (⟨400, "bad request", "field missing"⟩ : APIErrorPayload)
    (by simp) (by simp)

/-- Claim C8: `NewClient` resolves the stored base URL deterministically —
a non-empty explicit base URL wins (with one trailing slash stripped),
otherwise test mode selects the test URL and live mode the live URL; and
with no custom HTTP client a zero timeout defaults to 30 seconds. -/
theorem c8_new_client_resolution (config : ClientConfig) :
    (config.baseURL ≠ "" →
      (NewClient config).baseURL = trimSuffix config.baseURL "/")
    ∧ (config.baseURL = "" → config.testMode = true →
      (NewClient config).baseURL = "https://test.bagelpay.io")
    ∧ (config.baseURL = "" → config.testMode = false →
      (NewClient config).baseURL = "https://live.bagelpay.io")
    ∧ (config.timeout = 0 → config.httpClient = none →
      (NewClient config).httpTimeout = 30 * goSecond) := by
  obtain ⟨key, tm, burl, tout, hc⟩ := config
  refine ⟨?_, ?_, ?_, ?_⟩
  · intro hb
    simp [NewClient, if_neg hb]
  · intro hb htm
    subst hb; subst htm
    rfl
  · intro hb htm
    subst hb; subst htm
    rfl
  · intro ht hhc
    subst ht; subst hhc
    simp [NewClient]

/-- Witness for C8 at a concrete config with an explicit slash-terminated
base URL and a zero timeout. -/
theorem c8_witness :
    (("https://x.io/" : String) ≠ "" →
      (NewClient ⟨"k", true, "https://x.io/", 0, none⟩).baseURL =
        trimSuffix "https://x.io/" "/")
    ∧ (("https://x.io/" : String) = "" → true = true →
      (NewClient ⟨"k", true, "https://x.io/", 0, none⟩).baseURL =
        "https://test.bagelpay.io")
    ∧ (("https://x.io/" : String) = "" → true = false →
      (NewClient ⟨"k", true, "https://x.io/", 0, none⟩).baseURL =
        "https://live.bagelpay.io")
    ∧ ((0 : Nat) = 0 → (none : Option Nat) = none →
      (NewClient ⟨"k", true, "https://x.io/", 0, none⟩).httpTimeout =
        30 * goSecond) :=
  c8_new_client_resolution ⟨"k", true, "https://x.io/", 0, none⟩

/-- Claim C10: the path-parameterized operations interpolate the raw id
into the endpoint with no URL escaping, so an id containing `?`, `#` or `/`
changes the structure of the request URL: a `?` in the id turns its tail
into the query, a `#` into the fragment, and a `/` adds a path segment
(an id of `42/archive` for `GetProduct` collides with the
`ArchiveProduct` route for id `42`). -/
theorem c10_path_interpolation_unescaped (productID subscriptionID : String) :
    (getProductEndpoint productID = "/api/products/" ++ productID
     ∧ archiveProductEndpoint productID =
        "/api/products/" ++ productID ++ "/archive"
     ∧ unarchiveProductEndpoint productID =
        "/api/products/" ++ productID ++ "/unarchive"
     ∧ getSubscriptionEndpoint subscriptionID =
        "/api/subscriptions/" ++ subscriptionID
     ∧ cancelSubscriptionEndpoint subscriptionID =
        "/api/subscriptions/" ++ subscriptionID ++ "/cancel")
    ∧ urlPath ("https://test.bagelpay.io" ++ getProductEndpoint "42?admin=1") =
        "https://test.bagelpay.io/api/products/42"
    ∧ urlRawQuery
        ("https://test.bagelpay.io" ++ getProductEndpoint "42?admin=1") =
        "admin=1"
    ∧ urlFragment
        ("https://test.bagelpay.io" ++ getProductEndpoint "42#section") =
        "section"
    ∧ getProductEndpoint "42/archive" = archiveProductEndpoint "42" := by
  refine ⟨⟨rfl, rfl, rfl, rfl, rfl⟩, ?_, ?_, ?_, rfl⟩ <;> decide
